import Mathlib

/-!
perplexity-mcp-go: the tool definition, the request construction of
`handleSearchTool`, and the executor `performPerplexityChat`.

A shallow embedding of `main.go`.  The handler reads a dynamically typed
argument bag and three environment variables, validates and defaults them into
a `PerplexityChatRequest`, and passes that request to `performPerplexityChat`,
which serialises it, sends it, and extracts the answer from the reply.

Conventions of the embedding:

* `os.Getenv` is a function `String → String` (unset variables read as `""`);
* `request.Params.Arguments` (`map[string]interface{}`) is a function
  `String → Option Value`, `none` standing for a missing key;
* Go `float64` is carried by its IEEE-754 binary64 bit pattern;
* Go `int` is the 64-bit two's complement integer, carried as an `Int`;
* `error` values are the message strings produced by `fmt.Errorf`;
* the network is a pair of functions (the HTTP round trip and the JSON
  decoder of the reply), and the handler's outcome records every request it
  hands to `performPerplexityChat`.
-/

namespace PerplexityMCP

/-! ## Model identifiers (main.go 16-31) -/

def ModelSonarPro : String := "sonar-pro"
def ModelSonar : String := "sonar"
def ModelDeepResearch : String := "sonar-deep-research"
def ModelReasoningPro : String := "sonar-reasoning-pro"
def ModelReasoning : String := "sonar-reasoning"
def ModelR1 : String := "r1-1776"

def perplexityAPIURL : String := "https://api.perplexity.ai/chat/completions"

/-- The slice `validModels` of `handleSearchTool` (main.go 228-231). -/
def validModels : List String :=
  [ModelSonarPro, ModelSonar, ModelDeepResearch, ModelReasoningPro, ModelReasoning, ModelR1]

/-! ## float64 -/

/-- Go `float64`, given by its IEEE-754 binary64 bit pattern (taken modulo `2^64`). -/
structure Float64 where
  bits : Nat
deriving DecidableEq, Repr

namespace Float64

/-- Sign bit. -/
def sign (f : Float64) : Bool := f.bits / 2 ^ 63 % 2 = 1

/-- Biased exponent field, 11 bits. -/
def expo (f : Float64) : Nat := f.bits / 2 ^ 52 % 2 ^ 11

/-- Fraction field, 52 bits. -/
def frac (f : Float64) : Nat := f.bits % 2 ^ 52

/-- Integer significand: the fraction, with the hidden bit for normal numbers. -/
def mant (f : Float64) : Nat := if f.expo = 0 then f.frac else 2 ^ 52 + f.frac

/-- Exponent of the unit in the last place, biased by 1075: the magnitude of a
finite value is `mant * 2 ^ (ulpExp - 1075)`. -/
def ulpExp (f : Float64) : Nat := if f.expo = 0 then 1 else f.expo

/-- Whether the value is a number other than NaN and the infinities. -/
def isFinite (f : Float64) : Bool := f.expo ≠ 2047

/-- The magnitude of a finite value, as a rational number. -/
def magnitude (f : Float64) : ℚ :=
  if 1075 ≤ f.ulpExp then (f.mant : ℚ) * 2 ^ (f.ulpExp - 1075)
  else (f.mant : ℚ) / 2 ^ (1075 - f.ulpExp)

/-- The exact value of a finite float64; `none` for NaN and the infinities. -/
def toRat (f : Float64) : Option ℚ :=
  if f.isFinite then some (if f.sign then - f.magnitude else f.magnitude) else none

/-- The magnitude of a finite value with its fractional part discarded. -/
def truncMag (f : Float64) : Nat :=
  if 1075 ≤ f.ulpExp then f.mant * 2 ^ (f.ulpExp - 1075)
  else f.mant / 2 ^ (1075 - f.ulpExp)

/-- Go conversion `int(f)` on a 64-bit platform: the fraction is discarded
(truncation towards zero).  When the result does not fit `int`, and for NaN and
the infinities, the Go specification leaves the value to the implementation;
the value taken here is the one produced on amd64, `-2^63`. -/
def toInt (f : Float64) : Int :=
  if f.isFinite then
    let t : Int := if f.sign then - (f.truncMag : Int) else (f.truncMag : Int)
    if - (2 : Int) ^ 63 ≤ t ∧ t < (2 : Int) ^ 63 then t else - (2 : Int) ^ 63
  else - (2 : Int) ^ 63

/-- Go comparison `f == 0`: true of both signed zeros. -/
def isZero (f : Float64) : Bool := f.bits % 2 ^ 63 = 0

end Float64

/-- The float64 constant `0.2` (nearest binary64 to 1/5). -/
def float_0_2 : Float64 := ⟨0x3FC999999999999A⟩
/-- The float64 constant `0.9` (nearest binary64 to 9/10). -/
def float_0_9 : Float64 := ⟨0x3FECCCCCCCCCCCCD⟩
/-- The float64 constant `0.0`. -/
def float_0_0 : Float64 := ⟨0⟩
/-- The float64 constant `1.0`. -/
def float_1_0 : Float64 := ⟨0x3FF0000000000000⟩

/-! ## Dynamically typed values and the argument bag -/

/-- A value of type `interface{}` as produced by decoding JSON: the dynamic
types are nil, `bool`, `float64`, `string`, `[]interface{}` and
`map[string]interface{}`. -/
inductive Value where
  | null
  | bool (b : Bool)
  | number (f : Float64)
  | string (s : String)
  | array (xs : List Value)
  | object (m : String → Option Value)

/-- The argument bag `request.Params.Arguments`. -/
abbrev Arguments := String → Option Value

/-- The empty argument bag. -/
def Arguments.empty : Arguments := fun _ => none

/-- The bag with key `k` bound to `v`. -/
def Arguments.insert (args : Arguments) (k : String) (v : Value) : Arguments :=
  fun k' => if k' = k then some v else args k'

/-- The bag with key `k` removed. -/
def Arguments.erase (args : Arguments) (k : String) : Arguments :=
  fun k' => if k' = k then none else args k'

/-- Type assertion `m[k].(string)` on the result of a map lookup. -/
def assertString : Option Value → Option String
  | some (.string s) => some s
  | _ => none

/-- Type assertion `m[k].(float64)`. -/
def assertFloat64 : Option Value → Option Float64
  | some (.number f) => some f
  | _ => none

/-- Type assertion `m[k].(bool)`. -/
def assertBool : Option Value → Option Bool
  | some (.bool b) => some b
  | _ => none

/-- Type assertion `m[k].([]interface{})`. -/
def assertSlice : Option Value → Option (List Value)
  | some (.array xs) => some xs
  | _ => none

/-- Type assertion `m[k].(map[string]interface{})`. -/
def assertMap : Option Value → Option (String → Option Value)
  | some (.object m) => some m
  | _ => none

/-! ## Request and response structures (main.go 47-92) -/

structure PerplexityChatMessage where
  Role : String
  Content : String
deriving DecidableEq, Repr

/-- The anonymous struct behind the pointer field `WebSearchOptions`. -/
structure WebSearchOptions where
  SearchContextSize : String
deriving DecidableEq, Repr

/-- `PerplexityChatRequest`.  A nil slice and a nil pointer are `none`. -/
structure PerplexityChatRequest where
  Model : String
  Messages : List PerplexityChatMessage
  MaxTokens : Int
  Temperature : Float64
  TopP : Float64
  SearchDomainFilter : Option (List String)
  ReturnImages : Bool
  ReturnRelatedQuestions : Bool
  SearchRecencyFilter : String
  TopK : Int
  Stream : Bool
  PresencePenalty : Float64
  FrequencyPenalty : Float64
  ResponseFormat : Option Unit
  WebSearchOptions : Option WebSearchOptions
deriving DecidableEq, Repr

structure ChoiceMessage where
  Role : String
  Content : String
deriving DecidableEq, Repr

structure Choice where
  Message : ChoiceMessage
  FinishReason : String
deriving DecidableEq, Repr

structure Usage where
  PromptTokens : Int
  CompletionTokens : Int
  TotalTokens : Int
deriving DecidableEq, Repr

structure PerplexityChatResponse where
  ID : String
  Object : String
  Created : Int
  Model : String
  Choices : List Choice
  Usage : Usage
deriving DecidableEq, Repr

/-! ## `fmt.Sscanf(input, "%d", &n)` with `n` of type `int`

The standard library is not part of the repository; the scanner is modelled
after `fmt/scan.go` and `strconv/atoi.go`.  The scanner works on the runes of
the input; the text after the scanned token is left unread and is not an
error. -/

/-- The space table of the `fmt` scanner (`isSpace` of scan.go). -/
def isSpace (r : Char) : Bool :=
  let n := r.toNat
  (0x09 ≤ n && n ≤ 0x0d) || n == 0x20 || n == 0x85 || n == 0xA0 || n == 0x1680 ||
  (0x2000 ≤ n && n ≤ 0x200a) || n == 0x2028 || n == 0x2029 || n == 0x202f ||
  n == 0x205f || n == 0x3000

/-- Method `SkipSpace` of the scan state for `Sscanf` (newlines are not
spaces there): spaces are consumed, a newline is an error. -/
def SkipSpace : List Char → Except String (List Char)
  | [] => .ok []
  | r :: rest =>
    if r = Char.ofNat 13 ∧ rest.head? = some (Char.ofNat 10) then SkipSpace rest
    else if r = Char.ofNat 10 then .error "unexpected newline"
    else if isSpace r then SkipSpace rest
    else .ok (r :: rest)

/-- The characters accepted as digits for the verb d: the constant
`decimalDigits` of scan.go (the scanner adds the underscore for the verb v
only). -/
def decimalDigits : List Char := "0123456789".toList

/-- The constant `sign` of scan.go. -/
def signChars : List Char := "+-".toList

/-- The number written by a string of decimal digits, most significant digit
first. -/
def decimalValue (ds : List Char) : Nat :=
  ds.foldl (fun acc c => acc * 10 + (c.toNat - 48)) 0

/-- Function `strconv.ParseUint(s, 10, 64)`: every byte has to be a decimal
digit and the value has to fit 64 bits.  Which of the two errors is met first
on a string that has both faults is not modelled; the scanner passes digits
only. -/
def ParseUint (s : List Char) : Except String Nat :=
  if s = [] then .error "invalid syntax"
  else if s.all Char.isDigit then
    if decimalValue s < 2 ^ 64 then .ok (decimalValue s) else .error "value out of range"
  else .error "invalid syntax"

/-- Function `strconv.ParseInt(s, 10, 64)`. -/
def ParseInt (s : List Char) : Except String Int :=
  match s with
  | [] => .error "invalid syntax"
  | c :: rest =>
    let neg : Bool := c = '-'
    let body := if c = '+' ∨ c = '-' then rest else c :: rest
    match ParseUint body with
    | .error e => .error e
    | .ok un =>
      if !neg ∧ un ≥ 2 ^ 63 then .error "value out of range"
      else if neg ∧ un > 2 ^ 63 then .error "value out of range"
      else .ok (if neg then - (un : Int) else (un : Int))

/-- Method `scanInt('d', 64)` of the scan state: skip spaces, take an
optional sign, take the longest run of digit characters (at least one), and
convert the token with `ParseInt`. -/
def scanInt (input : List Char) : Except String Int :=
  match SkipSpace input with
  | .error e => .error e
  | .ok [] => .error "EOF"
  | .ok (c :: rest) =>
    let sgn : List Char := if c ∈ signChars then [c] else []
    let afterSign := if c ∈ signChars then rest else c :: rest
    match afterSign with
    | [] => .error "EOF"
    | d :: _ =>
      if d ∈ decimalDigits then
        ParseInt (sgn ++ afterSign.takeWhile (fun x => decide (x ∈ decimalDigits)))
      else .error "expected integer"

/-- The call `fmt.Sscanf(input, "%d", &n)`: `.ok v` when `v` is stored into
`n` and the returned error is nil, `.error` when an error is returned, in which
case `n` is not written. -/
def Sscanf_d (input : String) : Except String Int :=
  match SkipSpace input.toList with
  | .error e => .error e
  | .ok rest => scanInt rest

/-! ## `handleSearchTool`: building the request (main.go 165-323) -/

/-- The value of `defaultMaxTokens` after main.go 172 and 184-189. -/
def resolveDefaultMaxTokens (getenv : String → String) : Int :=
  let envMaxTokens := getenv "DEFAULT_MAX_TOKENS"
  if envMaxTokens ≠ "" then
    match Sscanf_d envMaxTokens with
    | .ok n => n
    | .error _ => 2000   -- a warning goes to stderr
  else 2000

/-- The value of `defaultModel` after main.go 173 and 191-193. -/
def resolveDefaultModel (getenv : String → String) : String :=
  let envModel := getenv "PERPLEXITY_MODEL"
  if envModel ≠ "" then envModel else ModelSonarPro

/-- The value of `defaultSearchContextSize` after main.go 182 and 195-197. -/
def resolveDefaultSearchContextSize (getenv : String → String) : String :=
  let envContextSize := getenv "DEFAULT_SEARCH_CONTEXT_SIZE"
  if envContextSize ≠ "" then envContextSize else "medium"

/-- The composite literal of main.go 200-222. -/
def initialChatRequest (getenv : String → String) (query : String) : PerplexityChatRequest :=
  { Model := resolveDefaultModel getenv
    Messages := [{ Role := "user", Content := query }]
    MaxTokens := resolveDefaultMaxTokens getenv
    Temperature := float_0_2
    TopP := float_0_9
    SearchDomainFilter := none
    ReturnImages := false
    ReturnRelatedQuestions := false
    SearchRecencyFilter := ""
    TopK := 0
    Stream := false
    PresencePenalty := float_0_0
    FrequencyPenalty := float_1_0
    ResponseFormat := none
    WebSearchOptions := some { SearchContextSize := resolveDefaultSearchContextSize getenv } }

/-- Model validation, main.go 224-244: a caller model that is a non-empty
string has to be one of `validModels`. -/
def applyModel (args : Arguments) (r : PerplexityChatRequest) :
    Except String PerplexityChatRequest :=
  match assertString (args "model") with
  | some model =>
    if model ≠ "" then
      if validModels.any (fun m => model == m) then .ok { r with Model := model }
      else .error ("invalid model: " ++ model)
    else .ok r
  | none => .ok r

/-- Lines 247-249 of main.go. -/
def applyMaxTokens (args : Arguments) (r : PerplexityChatRequest) : PerplexityChatRequest :=
  match assertFloat64 (args "max_tokens") with
  | some maxTokens => { r with MaxTokens := maxTokens.toInt }
  | none => r

/-- Lines 251-253 of main.go. -/
def applyTemperature (args : Arguments) (r : PerplexityChatRequest) : PerplexityChatRequest :=
  match assertFloat64 (args "temperature") with
  | some temperature => { r with Temperature := temperature }
  | none => r

/-- Lines 255-257 of main.go. -/
def applyTopP (args : Arguments) (r : PerplexityChatRequest) : PerplexityChatRequest :=
  match assertFloat64 (args "top_p") with
  | some topP => { r with TopP := topP }
  | none => r

/-- The loop of main.go 261-266: a slice of the length of the input, made of
empty strings, in which index `i` is assigned when element `i` is a string. -/
def fillDomainFilter (domainFilter : List Value) : List String :=
  domainFilter.map (fun domain =>
    match assertString (some domain) with
    | some s => s
    | none => "")

/-- Lines 259-267 of main.go. -/
def applySearchDomainFilter (args : Arguments) (r : PerplexityChatRequest) :
    PerplexityChatRequest :=
  match assertSlice (args "search_domain_filter") with
  | some domainFilter =>
    if domainFilter.length > 0 then
      { r with SearchDomainFilter := some (fillDomainFilter domainFilter) }
    else r
  | none => r

/-- Lines 269-272 of main.go. -/
def applyReturnImages (args : Arguments) (r : PerplexityChatRequest) : PerplexityChatRequest :=
  match assertBool (args "return_images") with
  | some returnImages => { r with ReturnImages := returnImages }
  | none => r

/-- Lines 274-277 of main.go. -/
def applyReturnRelatedQuestions (args : Arguments) (r : PerplexityChatRequest) :
    PerplexityChatRequest :=
  match assertBool (args "return_related_questions") with
  | some b => { r with ReturnRelatedQuestions := b }
  | none => r

/-- Lines 279-282 of main.go. -/
def applySearchRecencyFilter (args : Arguments) (r : PerplexityChatRequest) :
    PerplexityChatRequest :=
  match assertString (args "search_recency_filter") with
  | some recencyFilter =>
    if recencyFilter ≠ "" then { r with SearchRecencyFilter := recencyFilter } else r
  | none => r

/-- Lines 284-286 of main.go. -/
def applyTopK (args : Arguments) (r : PerplexityChatRequest) : PerplexityChatRequest :=
  match assertFloat64 (args "top_k") with
  | some topK => { r with TopK := topK.toInt }
  | none => r

/-- Lines 288-290 of main.go. -/
def applyStream (args : Arguments) (r : PerplexityChatRequest) : PerplexityChatRequest :=
  match assertBool (args "stream") with
  | some stream => { r with Stream := stream }
  | none => r

/-- Lines 292-294 of main.go. -/
def applyPresencePenalty (args : Arguments) (r : PerplexityChatRequest) :
    PerplexityChatRequest :=
  match assertFloat64 (args "presence_penalty") with
  | some p => { r with PresencePenalty := p }
  | none => r

/-- Lines 296-298 of main.go. -/
def applyFrequencyPenalty (args : Arguments) (r : PerplexityChatRequest) :
    PerplexityChatRequest :=
  match assertFloat64 (args "frequency_penalty") with
  | some p => { r with FrequencyPenalty := p }
  | none => r

/-- Lines 300-303 of main.go. -/
def applyResponseFormat (args : Arguments) (r : PerplexityChatRequest) : PerplexityChatRequest :=
  match assertMap (args "response_format") with
  | some _ => { r with ResponseFormat := some () }
  | none => r

/-- Lines 305-313 of main.go.  The assignment goes through the pointer
`chatReq.WebSearchOptions`, which is never nil at this point (it is set by the
composite literal and cleared only afterwards). -/
def applyWebSearchOptions (args : Arguments) (r : PerplexityChatRequest) :
    PerplexityChatRequest :=
  match assertMap (args "web_search_options") with
  | some webSearchOptions =>
    match assertString (webSearchOptions "search_context_size") with
    | some searchContextSize =>
      if searchContextSize ≠ "" then
        if searchContextSize = "low" ∨ searchContextSize = "medium" ∨
            searchContextSize = "high" then
          { r with WebSearchOptions :=
              r.WebSearchOptions.map (fun _ => { SearchContextSize := searchContextSize }) }
        else r
      else r
    | none => r
  | none => r

/-- Lines 315-323 of main.go. -/
def normalizeOffline (r : PerplexityChatRequest) : PerplexityChatRequest :=
  if r.Model = ModelR1 then
    { r with
      SearchDomainFilter := none
      ReturnImages := false
      ReturnRelatedQuestions := false
      SearchRecencyFilter := ""
      WebSearchOptions := none }
  else r

/-- The optional parameters in source order, main.go 246-313. -/
def applyOverrides (args : Arguments) (r : PerplexityChatRequest) : PerplexityChatRequest :=
  applyWebSearchOptions args <|
  applyResponseFormat args <|
  applyFrequencyPenalty args <|
  applyPresencePenalty args <|
  applyStream args <|
  applyTopK args <|
  applySearchRecencyFilter args <|
  applyReturnRelatedQuestions args <|
  applyReturnImages args <|
  applySearchDomainFilter args <|
  applyTopP args <|
  applyTemperature args <|
  applyMaxTokens args r

/-- The request builder: `handleSearchTool` from the query check to the value
of `chatReq` handed to `performPerplexityChat` (main.go 165-323). -/
def buildChatRequest (getenv : String → String) (args : Arguments) :
    Except String PerplexityChatRequest :=
  match assertString (args "query") with
  | none => .error "invalid or empty query parameter"
  | some query =>
    if query = "" then .error "invalid or empty query parameter"
    else
      match applyModel args (initialChatRequest getenv query) with
      | .error e => .error e
      | .ok r => .ok (normalizeOffline (applyOverrides args r))

/-! ## `performPerplexityChat` (main.go 334-378) -/

/-- A JSON document as written by `json.Marshal`: objects keep the order of
the struct fields. -/
inductive JSON where
  | null
  | bool (b : Bool)
  | int (i : Int)
  | float (f : Float64)
  | str (s : String)
  | arr (xs : List JSON)
  | obj (fields : List (String × JSON))

/-- One struct field tagged `omitempty`: written unless the value is empty. -/
def omitempty (isEmpty : Bool) (key : String) (v : JSON) : List (String × JSON) :=
  if isEmpty then [] else [(key, v)]

/-- Encoding of a `PerplexityChatMessage` (no field is tagged `omitempty`). -/
def marshalMessage (m : PerplexityChatMessage) : JSON :=
  .obj [("role", .str m.Role), ("content", .str m.Content)]

/-- Encoding of the struct behind `WebSearchOptions`. -/
def marshalWebSearchOptions (w : WebSearchOptions) : JSON :=
  .obj (omitempty (w.SearchContextSize = "") "search_context_size" (.str w.SearchContextSize))

/-- The fields of `json.Marshal(req)` for a `PerplexityChatRequest`, after the
struct tags of main.go 54-72: `model` and `messages` are always written, every
other field is written unless it is empty (zero number, false, empty string,
slice of length zero, nil pointer). -/
def marshalFields (req : PerplexityChatRequest) : List (String × JSON) :=
  [("model", .str req.Model),
   ("messages", .arr (req.Messages.map marshalMessage))] ++
  omitempty (req.MaxTokens = 0) "max_tokens" (.int req.MaxTokens) ++
  omitempty req.Temperature.isZero "temperature" (.float req.Temperature) ++
  omitempty req.TopP.isZero "top_p" (.float req.TopP) ++
  omitempty ((req.SearchDomainFilter.getD []).length = 0) "search_domain_filter"
    (.arr ((req.SearchDomainFilter.getD []).map .str)) ++
  omitempty (req.ReturnImages = false) "return_images" (.bool req.ReturnImages) ++
  omitempty (req.ReturnRelatedQuestions = false) "return_related_questions"
    (.bool req.ReturnRelatedQuestions) ++
  omitempty (req.SearchRecencyFilter = "") "search_recency_filter"
    (.str req.SearchRecencyFilter) ++
  omitempty (req.TopK = 0) "top_k" (.int req.TopK) ++
  omitempty (req.Stream = false) "stream" (.bool req.Stream) ++
  omitempty req.PresencePenalty.isZero "presence_penalty" (.float req.PresencePenalty) ++
  omitempty req.FrequencyPenalty.isZero "frequency_penalty" (.float req.FrequencyPenalty) ++
  omitempty req.ResponseFormat.isNone "response_format" (.obj []) ++
  omitempty req.WebSearchOptions.isNone "web_search_options"
    (match req.WebSearchOptions with
     | some w => marshalWebSearchOptions w
     | none => .null)

/-- The text `strconv.FormatFloat(f, 'g', -1, 64)` of a float64 that is not
finite, as it appears in the error of the encoder. -/
def formatNonFinite (f : Float64) : String :=
  if f.frac ≠ 0 then "NaN" else if f.sign then "-Inf" else "+Inf"

/-- The float fields of the request in the order of the struct. -/
def floatFields (req : PerplexityChatRequest) : List Float64 :=
  [req.Temperature, req.TopP, req.PresencePenalty, req.FrequencyPenalty]

/-- The call `json.Marshal(req)`: the encoder refuses a float64 that is NaN or
infinite (the first one met in field order is reported), and otherwise writes
the object of `marshalFields`. -/
def marshal (req : PerplexityChatRequest) : Except String JSON :=
  match (floatFields req).find? (fun f => !f.isFinite) with
  | some f => .error ("json: unsupported value: " ++ formatNonFinite f)
  | none => .ok (.obj (marshalFields req))

/-- The HTTP request assembled at main.go 343-350. -/
structure HTTPRequest where
  Method : String
  URL : String
  Authorization : String
  ContentType : String
  Body : JSON

/-- What is read of an HTTP reply: the status code and the body. -/
structure HTTPResponse where
  StatusCode : Int
  Body : String

/-- The upstream service as seen from the program: the round trip of
`client.Do`, which fails with a transport error or yields a reply, and the
decoding `json.NewDecoder(body).Decode(&chatResp)` of a reply body. -/
structure Upstream where
  roundTrip : HTTPRequest → Except String HTTPResponse
  decode : String → Except String PerplexityChatResponse

/-- Function `performPerplexityChat` of main.go. -/
def performPerplexityChat (up : Upstream) (apiKey : String) (req : PerplexityChatRequest) :
    Except String String :=
  match marshal req with
  | .error err => .error ("failed to serialize request: " ++ err)
  | .ok jsonData =>
    let httpReq : HTTPRequest :=
      { Method := "POST"
        URL := perplexityAPIURL
        Authorization := "Bearer " ++ apiKey
        ContentType := "application/json"
        Body := jsonData }
    match up.roundTrip httpReq with
    | .error err => .error ("API request failed: " ++ err)
    | .ok resp =>
      if resp.StatusCode ≠ 200 then
        .error ("API returned error status code " ++ toString resp.StatusCode ++ ": " ++
          resp.Body)
      else
        match up.decode resp.Body with
        | .error err => .error ("failed to parse response: " ++ err)
        | .ok chatResp =>
          match chatResp.Choices with
          | [] => .error "no content in response"
          | first :: _ => .ok first.Message.Content

/-! ## `handleSearchTool` (main.go 157-332) -/

/-- What one invocation of the handler does: the returned pair (the text of
the tool result, or the error), and the calls of `performPerplexityChat` it
made, each with the API key and the request passed. -/
structure Outcome where
  result : Except String String
  calls : List (String × PerplexityChatRequest)

/-- Function `handleSearchTool` of main.go. -/
def handleSearchTool (getenv : String → String) (up : Upstream) (args : Arguments) : Outcome :=
  let apiKey := getenv "PERPLEXITY_API_KEY"
  if apiKey = "" then
    { result := .error "PERPLEXITY_API_KEY environment variable not set", calls := [] }
  else
    match buildChatRequest getenv args with
    | .error e => { result := .error e, calls := [] }
    | .ok chatReq =>
      match performPerplexityChat up apiKey chatReq with
      | .error err =>
        { result := .error ("search execution failed: " ++ err), calls := [(apiKey, chatReq)] }
      | .ok responseText => { result := .ok responseText, calls := [(apiKey, chatReq)] }

deriving instance DecidableEq for Except

/-! ## The fields written by the override steps

The value each conditional assignment of main.go 259-313 leaves in its field,
as a function of the asserted argument and of the previous value. -/

/-- The domain filter after main.go 259-267, from the asserted slice and the
previous value of the field. -/
def domainFilterAfter (slice : Option (List Value)) (old : Option (List String)) :
    Option (List String) :=
  match slice with
  | some xs => if xs.length > 0 then some (fillDomainFilter xs) else old
  | none => old

/-- The recency filter after main.go 279-282. -/
def recencyFilterAfter (s : Option String) (old : String) : String :=
  match s with
  | some recencyFilter => if recencyFilter ≠ "" then recencyFilter else old
  | none => old

/-- The context size a caller asks for and the handler accepts, main.go 306-312. -/
def acceptedContextSize (m : Option (String → Option Value)) : Option String :=
  match m with
  | some webSearchOptions =>
    match assertString (webSearchOptions "search_context_size") with
    | some s =>
      if s ≠ "" then
        if s = "low" ∨ s = "medium" ∨ s = "high" then some s else none
      else none
    | none => none
  | none => none

/-- The web search options after main.go 305-313. -/
def webSearchOptionsAfter (m : Option (String → Option Value)) (old : Option WebSearchOptions) :
    Option WebSearchOptions :=
  match acceptedContextSize m with
  | some s => old.map (fun _ => { SearchContextSize := s })
  | none => old

/-! ## Sample inputs -/

/-- The number 42 as a float64. -/
def float_42 : Float64 := ⟨0x4045000000000000⟩

/-- The bag `{"query": "q", "search_domain_filter": ["a.com", 42, "b.com"]}`. -/
def bagDomainFilter : Arguments :=
  (Arguments.empty.insert "query" (.string "q")).insert "search_domain_filter"
    (.array [.string "a.com", .number float_42, .string "b.com"])

/-- The bag `{"query": "q", "model": ""}`. -/
def bagEmptyModel : Arguments :=
  (Arguments.empty.insert "query" (.string "q")).insert "model" (.string "")

/-- The bag `{"query": "q", "model": "gpt-4"}`. -/
def bagBogusModel : Arguments :=
  (Arguments.empty.insert "query" (.string "q")).insert "model" (.string "gpt-4")

/-- The bag `{"query": "q", "model": "sonar"}`. -/
def bagSonar : Arguments :=
  (Arguments.empty.insert "query" (.string "q")).insert "model" (.string "sonar")

/-- The environment with `name` set to `value`. -/
def setenv (getenv : String → String) (name value : String) : String → String :=
  fun k => if k = name then value else getenv k

/-- The environment in which no variable is set. -/
def envEmpty : String → String := fun _ => ""

/-- An environment that sets the API key only. -/
def envKeyOnly : String → String := setenv envEmpty "PERPLEXITY_API_KEY" "key"

/-- An environment that sets the API key and the offline model as default. -/
def envModelR1 : String → String := setenv envKeyOnly "PERPLEXITY_MODEL" "r1-1776"

/-- An upstream that cannot be reached. -/
def upstreamDown : Upstream :=
  { roundTrip := fun _ => .error "connection refused"
    decode := fun _ => .error "unexpected end of JSON input" }

/-- A bag that names the offline model and asks for every search-shaped field. -/
def bagSearchy : Arguments :=
  (((((Arguments.empty.insert "query" (.string "q")).insert "search_domain_filter"
    (.array [.string "a.com"])).insert "return_images" (.bool true)).insert
    "return_related_questions" (.bool true)).insert "search_recency_filter"
    (.string "week")).insert "web_search_options"
    (.object (fun k => if k = "search_context_size" then some (.string "high") else none))

/-- The request built from `bagSearchy` when the model resolves to r1-1776. -/
def requestOfflineSample : PerplexityChatRequest :=
  { Model := "r1-1776"
    Messages := [{ Role := "user", Content := "q" }]
    MaxTokens := 2000
    Temperature := float_0_2
    TopP := float_0_9
    SearchDomainFilter := none
    ReturnImages := false
    ReturnRelatedQuestions := false
    SearchRecencyFilter := ""
    TopK := 0
    Stream := false
    PresencePenalty := float_0_0
    FrequencyPenalty := float_1_0
    ResponseFormat := none
    WebSearchOptions := none }

/-- The bag `{"query": 42, "model": "sonar"}`. -/
def bagNumericQuery : Arguments :=
  (Arguments.empty.insert "query" (.number float_42)).insert "model" (.string "sonar")

/-- The sign of a decimal numeral: none written, plus, or minus. -/
inductive Sign where
  | none
  | plus
  | minus
deriving DecidableEq, Repr

/-- The characters a sign is written with. -/
def Sign.chars : Sign → List Char
  | .none => []
  | .plus => ['+']
  | .minus => ['-']

/-- The integer denoted by a sign and a magnitude. -/
def Sign.apply : Sign → Nat → Int
  | .none, n => (n : Int)
  | .plus, n => (n : Int)
  | .minus, n => - (n : Int)

/-- The bag `{"query": "q"}`. -/
def bagQueryOnly : Arguments := Arguments.empty.insert "query" (.string "q")

/-- The number 100 as a float64. -/
def float_100 : Float64 := ⟨0x4059000000000000⟩

/-- The number 2^63 as a float64. -/
def float_2_pow_63 : Float64 := ⟨0x43E0000000000000⟩

/-- The bag `{"query": "q", "max_tokens": 100}`. -/
def bagMaxTokens100 : Arguments := bagQueryOnly.insert "max_tokens" (.number float_100)

/-- The bag `{"query": "q", "max_tokens": 9223372036854775808}`. -/
def bagMaxTokensHuge : Arguments := bagQueryOnly.insert "max_tokens" (.number float_2_pow_63)

/-- An environment with DEFAULT_MAX_TOKENS=abc. -/
def envMaxTokensWord : String → String := setenv envKeyOnly "DEFAULT_MAX_TOKENS" "abc"

/-- An environment with DEFAULT_MAX_TOKENS=5000. -/
def envMaxTokens5000 : String → String := setenv envKeyOnly "DEFAULT_MAX_TOKENS" "5000"

/-- An environment with DEFAULT_MAX_TOKENS=9223372036854775808, which is 2^63. -/
def envMaxTokensHuge : String → String :=
  setenv envKeyOnly "DEFAULT_MAX_TOKENS" "9223372036854775808"

/-- The request built from `bagQueryOnly` under `envMaxTokens5000`. -/
def requestEnv5000 : PerplexityChatRequest :=
  { Model := "sonar-pro"
    Messages := [{ Role := "user", Content := "q" }]
    MaxTokens := 5000
    Temperature := float_0_2
    TopP := float_0_9
    SearchDomainFilter := none
    ReturnImages := false
    ReturnRelatedQuestions := false
    SearchRecencyFilter := ""
    TopK := 0
    Stream := false
    PresencePenalty := float_0_0
    FrequencyPenalty := float_1_0
    ResponseFormat := none
    WebSearchOptions := some { SearchContextSize := "medium" } }

/-- The dynamic types the optional scalar fields are asserted to have. -/
inductive ScalarType where
  | number
  | boolean
  | string
deriving DecidableEq, Repr

/-- Whether a value has the given dynamic type. -/
def Value.hasType : Value → ScalarType → Bool
  | .number _, .number => true
  | .bool _, .boolean => true
  | .string _, .string => true
  | _, _ => false

/-- The ten optional scalar fields of main.go 246-257 and 269-298, each with the
type of its assertion. -/
def optionalScalars : List (String × ScalarType) :=
  [("max_tokens", .number), ("temperature", .number), ("top_p", .number),
   ("top_k", .number), ("presence_penalty", .number), ("frequency_penalty", .number),
   ("return_images", .boolean), ("return_related_questions", .boolean),
   ("stream", .boolean), ("search_recency_filter", .string)]

/-- The bag `{"query": "q", "max_tokens": "100", "temperature": 0.9}`. -/
def bagMistyped : Arguments :=
  (bagQueryOnly.insert "max_tokens" (.string "100")).insert "temperature" (.number float_0_9)

/-- An environment with DEFAULT_SEARCH_CONTEXT_SIZE=ultra. -/
def envContextUltra : String → String :=
  setenv envKeyOnly "DEFAULT_SEARCH_CONTEXT_SIZE" "ultra"

/-- The bag `{"query": "q", "web_search_options": {"search_context_size": "high"}}`. -/
def bagContextHigh : Arguments :=
  bagQueryOnly.insert "web_search_options"
    (.object (fun k => if k = "search_context_size" then some (.string "high") else none))

/-- The request built from `bagContextHigh` with no override in the environment. -/
def requestContextHigh : PerplexityChatRequest :=
  { Model := "sonar-pro"
    Messages := [{ Role := "user", Content := "q" }]
    MaxTokens := 2000
    Temperature := float_0_2
    TopP := float_0_9
    SearchDomainFilter := none
    ReturnImages := false
    ReturnRelatedQuestions := false
    SearchRecencyFilter := ""
    TopK := 0
    Stream := false
    PresencePenalty := float_0_0
    FrequencyPenalty := float_1_0
    ResponseFormat := none
    WebSearchOptions := some { SearchContextSize := "high" } }

/-! ## Sample inputs for the executor and the later properties -/

/-- The HTTP request `performPerplexityChat` sends for a serialised body. -/
def chatHTTPRequest (apiKey : String) (jsonData : JSON) : HTTPRequest :=
  { Method := "POST"
    URL := perplexityAPIURL
    Authorization := "Bearer " ++ apiKey
    ContentType := "application/json"
    Body := jsonData }

/-- The bag `{"query": "q", "web_search_options": {"search_context_size": "ultra"}}`. -/
def bagContextUltra : Arguments :=
  bagQueryOnly.insert "web_search_options"
    (.object (fun k => if k = "search_context_size" then some (.string "ultra") else none))

/-- A decoded reply with two candidates. -/
def responseTwoChoices : PerplexityChatResponse :=
  { ID := "id-1"
    Object := "chat.completion"
    Created := 0
    Model := "sonar-pro"
    Choices :=
      [{ Message := { Role := "assistant", Content := "first answer" }, FinishReason := "stop" },
       { Message := { Role := "assistant", Content := "second answer" }, FinishReason := "stop" }]
    Usage := { PromptTokens := 1, CompletionTokens := 2, TotalTokens := 3 } }

/-- An upstream that answers 200 with a body that decodes to two candidates. -/
def upstreamTwoChoices : Upstream :=
  { roundTrip := fun _ => .ok { StatusCode := 200, Body := "two" }
    decode := fun _ => .ok responseTwoChoices }

/-- An upstream that answers 200 with a body that decodes to no candidate. -/
def upstreamNoChoice : Upstream :=
  { roundTrip := fun _ => .ok { StatusCode := 200, Body := "none" }
    decode := fun _ => .ok { responseTwoChoices with Choices := [] } }

/-- An upstream that answers 429 with the body "rate limited"; the decoder
would accept any body. -/
def upstreamRateLimited : Upstream :=
  { roundTrip := fun _ => .ok { StatusCode := 429, Body := "rate limited" }
    decode := fun _ => .ok responseTwoChoices }

/-- An environment with PERPLEXITY_MODEL=my-custom-model, outside the closed set. -/
def envModelCustom : String → String := setenv envKeyOnly "PERPLEXITY_MODEL" "my-custom-model"

/-! ## `buildSearchTool` (main.go 94-155)

The tool definition of the `mcp` package, as far as the source fills it: the
name, the description, and one property for each `With...` option. -/

/-- The JSON type a tool property is declared with. -/
inductive PropertyType where
  | string
  | number
  | boolean
  | array
  | object
deriving DecidableEq, Repr

/-- A property of the tool's input schema. -/
structure ToolProperty where
  name : String
  type : PropertyType
  required : Bool
  description : String
  enum : List String
  defaultNumber : Option Float64
deriving DecidableEq, Repr

/-- The value `mcp.Tool`. -/
structure Tool where
  Name : String
  Description : String
  Properties : List ToolProperty
deriving DecidableEq, Repr

/-- Function `buildSearchTool` of main.go. -/
def buildSearchTool : Tool :=
  { Name := "perplexity_search"
    Description := "Perform web search using Perplexity API and return results"
    Properties :=
      [ { name := "query", type := .string, required := true
          description := "Search query string", enum := [], defaultNumber := none },
        { name := "model", type := .string, required := false
          description := "Model to use for the search. Options include:\n" ++
            "- sonar-pro: Advanced search offering with grounding (default)\n" ++
            "- sonar: Lightweight, cost-effective search model\n" ++
            "- sonar-deep-research: Expert-level research model for comprehensive reports\n" ++
            "- sonar-reasoning-pro: Premier reasoning model with Chain of Thought\n" ++
            "- sonar-reasoning: Fast, real-time reasoning model\n" ++
            "- r1-1776: Offline chat model (no search capability)"
          enum := [ModelSonarPro, ModelSonar, ModelDeepResearch, ModelReasoningPro,
            ModelReasoning, ModelR1]
          defaultNumber := none },
        { name := "search_recency_filter", type := .string, required := false
          description := "Filter search results by recency (options: month, week, day, hour)"
          enum := ["month", "week", "day", "hour"], defaultNumber := none },
        { name := "max_tokens", type := .number, required := false
          description := "Maximum number of tokens returned by the API (max 8k for sonar-pro)"
          enum := [], defaultNumber := none },
        { name := "temperature", type := .number, required := false
          description := "Amount of randomness in the response, valued between 0 and 2"
          enum := [], defaultNumber := some float_0_2 },
        { name := "top_p", type := .number, required := false
          description := "Nucleus sampling threshold, valued between 0 and 1"
          enum := [], defaultNumber := some float_0_9 },
        { name := "search_domain_filter", type := .array, required := false
          description := "List of domains to limit search results to"
          enum := [], defaultNumber := none },
        { name := "return_images", type := .boolean, required := false
          description := "Whether search results should include images"
          enum := [], defaultNumber := none },
        { name := "return_related_questions", type := .boolean, required := false
          description := "Whether related questions should be returned"
          enum := [], defaultNumber := none },
        { name := "top_k", type := .number, required := false
          description := "Number of tokens to keep for top-k filtering"
          enum := [], defaultNumber := some float_0_0 },
        { name := "stream", type := .boolean, required := false
          description := "Whether to stream the response incrementally"
          enum := [], defaultNumber := none },
        { name := "presence_penalty", type := .number, required := false
          description := "Positive values increase the likelihood of discussing new topics"
          enum := [], defaultNumber := some float_0_0 },
        { name := "frequency_penalty", type := .number, required := false
          description := "Decreases likelihood of repetition based on prior frequency"
          enum := [], defaultNumber := some float_1_0 },
        { name := "web_search_options", type := .object, required := false
          description := "Configuration for using web search in model responses. The " ++
            "'search_context_size' property can be set to 'low', 'medium', or 'high' to " ++
            "control how much search context is retrieved (default: medium)"
          enum := [], defaultNumber := none } ] }

/-- The parameter names the tool declares. -/
def declaredParameters : List String := buildSearchTool.Properties.map (·.name)

/-- The keys `handleSearchTool` looks up in `request.Params.Arguments`, in the
order of the source (main.go 166-306). -/
def argumentNamesRead : List String :=
  ["query", "model", "max_tokens", "temperature", "top_p", "search_domain_filter",
   "return_images", "return_related_questions", "search_recency_filter", "top_k", "stream",
   "presence_penalty", "frequency_penalty", "response_format", "web_search_options"]

/-- The enumerated values the tool declares for a parameter. -/
def declaredEnum (name : String) : List String :=
  match buildSearchTool.Properties.find? (fun p => p.name == name) with
  | some p => p.enum
  | none => []

/-- The keys of the search-shaped fields. -/
def searchShapedKeys : List String :=
  ["search_domain_filter", "return_images", "return_related_questions",
   "search_recency_filter", "web_search_options"]

/-- The bag with every key of a list removed. -/
def Arguments.eraseAll (args : Arguments) (keys : List String) : Arguments :=
  fun k => if k ∈ keys then none else args k

/-- The bag `{"query": "q", "response_format": {}}`. -/
def bagResponseFormat : Arguments :=
  bagQueryOnly.insert "response_format" (.object (fun _ => none))

/-- The bag `{"query": "q", "search_recency_filter": "decade"}`. -/
def bagRecencyDecade : Arguments :=
  bagQueryOnly.insert "search_recency_filter" (.string "decade")

/-- The bag `{"query": "q", "search_recency_filter": "week"}`. -/
def bagRecencyWeek : Arguments :=
  bagQueryOnly.insert "search_recency_filter" (.string "week")

/-- The bag `{"query": "q", "max_tokens": 0, "temperature": 0}`. -/
def bagZeroOverrides : Arguments :=
  (bagQueryOnly.insert "max_tokens" (.number float_0_0)).insert "temperature"
    (.number float_0_0)

/-- The bag `{"query": "q", "max_tokens": 100, "temperature": 0.9}`. -/
def bagNonZeroOverrides : Arguments :=
  (bagQueryOnly.insert "max_tokens" (.number float_100)).insert "temperature"
    (.number float_0_9)

/-- The bag `bagSearchy` with a caller model r1-1776 and a `max_tokens` of 100. -/
def bagOfflineSearchy : Arguments :=
  (bagSearchy.insert "model" (.string "r1-1776")).insert "max_tokens" (.number float_100)

/-- The request built from `bagNonZeroOverrides` with no override in the environment. -/
def requestNonZeroOverrides : PerplexityChatRequest :=
  { requestContextHigh with
    MaxTokens := 100
    Temperature := float_0_9
    WebSearchOptions := some { SearchContextSize := "medium" } }

/-! ## Shapes of an environment value, for the scanner -/

/-- A blank for the scanner: a space character other than the newline. -/
def isBlank (c : Char) : Bool := isSpace c && !(c == Char.ofNat 10)

/-- Whether a text is a decimal numeral: an optional sign, then one or more
decimal digits, and nothing else. -/
def isDecimalNumeral (s : List Char) : Bool :=
  match s with
  | [] => false
  | c :: rest =>
    if c = '+' ∨ c = '-' then !rest.isEmpty && rest.all Char.isDigit
    else (c :: rest).all Char.isDigit

/-- The handler ignores DEFAULT_MAX_TOKENS: the resolved default is 2000, the
builder and the handler behave as with the variable unset, and a request built
from a bag without `max_tokens` has MaxTokens 2000. -/
def MaxTokensVariableIgnored (getenv : String → String) (up : Upstream) (args : Arguments) :
    Prop :=
  resolveDefaultMaxTokens getenv = 2000 ∧
    buildChatRequest getenv args
      = buildChatRequest (setenv getenv "DEFAULT_MAX_TOKENS" "") args ∧
    handleSearchTool getenv up args
      = handleSearchTool (setenv getenv "DEFAULT_MAX_TOKENS" "") up args ∧
    (∀ r, buildChatRequest getenv args = .ok r → args "max_tokens" = none →
      r.MaxTokens = 2000)

/-- An environment with DEFAULT_MAX_TOKENS=12abc. -/
def envMaxTokens12abc : String → String := setenv envKeyOnly "DEFAULT_MAX_TOKENS" "12abc"

/-- An environment with DEFAULT_MAX_TOKENS=-9223372036854775809, which is -2^63 - 1. -/
def envMaxTokensNegHuge : String → String :=
  setenv envKeyOnly "DEFAULT_MAX_TOKENS" "-9223372036854775809"

/-- The bag `{"query": "q", "model": 42}`. -/
def bagNumericModel : Arguments := bagQueryOnly.insert "model" (.number float_42)

/-! # Theorems -/

/-! ## Each override step as a record update -/

theorem applyMaxTokens_eq (args : Arguments) (r : PerplexityChatRequest) :
    applyMaxTokens args r =
      { r with MaxTokens := ((assertFloat64 (args "max_tokens")).map Float64.toInt).getD r.MaxTokens } := by
  unfold applyMaxTokens; split <;> simp [*]

theorem applyTemperature_eq (args : Arguments) (r : PerplexityChatRequest) :
    applyTemperature args r =
      { r with Temperature := (assertFloat64 (args "temperature")).getD r.Temperature } := by
  unfold applyTemperature; split <;> simp [*]

theorem applyTopP_eq (args : Arguments) (r : PerplexityChatRequest) :
    applyTopP args r = { r with TopP := (assertFloat64 (args "top_p")).getD r.TopP } := by
  unfold applyTopP; split <;> simp [*]

theorem applySearchDomainFilter_eq (args : Arguments) (r : PerplexityChatRequest) :
    applySearchDomainFilter args r =
      { r with SearchDomainFilter :=
          domainFilterAfter (assertSlice (args "search_domain_filter")) r.SearchDomainFilter } := by
  unfold applySearchDomainFilter domainFilterAfter; split
  · split <;> simp [*]
  · simp [*]

theorem applyReturnImages_eq (args : Arguments) (r : PerplexityChatRequest) :
    applyReturnImages args r =
      { r with ReturnImages := (assertBool (args "return_images")).getD r.ReturnImages } := by
  unfold applyReturnImages; split <;> simp [*]

theorem applyReturnRelatedQuestions_eq (args : Arguments) (r : PerplexityChatRequest) :
    applyReturnRelatedQuestions args r =
      { r with ReturnRelatedQuestions :=
          (assertBool (args "return_related_questions")).getD r.ReturnRelatedQuestions } := by
  unfold applyReturnRelatedQuestions; split <;> simp [*]

theorem applySearchRecencyFilter_eq (args : Arguments) (r : PerplexityChatRequest) :
    applySearchRecencyFilter args r =
      { r with SearchRecencyFilter :=
          recencyFilterAfter (assertString (args "search_recency_filter")) r.SearchRecencyFilter } := by
  unfold applySearchRecencyFilter recencyFilterAfter; split
  · split <;> simp [*]
  · simp [*]

theorem applyTopK_eq (args : Arguments) (r : PerplexityChatRequest) :
    applyTopK args r =
      { r with TopK := ((assertFloat64 (args "top_k")).map Float64.toInt).getD r.TopK } := by
  unfold applyTopK; split <;> simp [*]

theorem applyStream_eq (args : Arguments) (r : PerplexityChatRequest) :
    applyStream args r = { r with Stream := (assertBool (args "stream")).getD r.Stream } := by
  unfold applyStream; split <;> simp [*]

theorem applyPresencePenalty_eq (args : Arguments) (r : PerplexityChatRequest) :
    applyPresencePenalty args r =
      { r with PresencePenalty :=
          (assertFloat64 (args "presence_penalty")).getD r.PresencePenalty } := by
  unfold applyPresencePenalty; split <;> simp [*]

theorem applyFrequencyPenalty_eq (args : Arguments) (r : PerplexityChatRequest) :
    applyFrequencyPenalty args r =
      { r with FrequencyPenalty :=
          (assertFloat64 (args "frequency_penalty")).getD r.FrequencyPenalty } := by
  unfold applyFrequencyPenalty; split <;> simp [*]

theorem applyResponseFormat_eq (args : Arguments) (r : PerplexityChatRequest) :
    applyResponseFormat args r =
      { r with ResponseFormat :=
          ((assertMap (args "response_format")).map (fun _ => some ())).getD r.ResponseFormat } := by
  unfold applyResponseFormat; split <;> simp [*]

theorem applyWebSearchOptions_eq (args : Arguments) (r : PerplexityChatRequest) :
    applyWebSearchOptions args r =
      { r with WebSearchOptions :=
          webSearchOptionsAfter (assertMap (args "web_search_options")) r.WebSearchOptions } := by
  unfold applyWebSearchOptions webSearchOptionsAfter acceptedContextSize
  split
  · split
    · split
      · split <;> simp [*]
      · simp [*]
    · simp [*]
  · simp [*]

theorem applyOverrides_eq (args : Arguments) (r : PerplexityChatRequest) :
    applyOverrides args r =
      { Model := r.Model
        Messages := r.Messages
        MaxTokens := ((assertFloat64 (args "max_tokens")).map Float64.toInt).getD r.MaxTokens
        Temperature := (assertFloat64 (args "temperature")).getD r.Temperature
        TopP := (assertFloat64 (args "top_p")).getD r.TopP
        SearchDomainFilter :=
          domainFilterAfter (assertSlice (args "search_domain_filter")) r.SearchDomainFilter
        ReturnImages := (assertBool (args "return_images")).getD r.ReturnImages
        ReturnRelatedQuestions :=
          (assertBool (args "return_related_questions")).getD r.ReturnRelatedQuestions
        SearchRecencyFilter :=
          recencyFilterAfter (assertString (args "search_recency_filter")) r.SearchRecencyFilter
        TopK := ((assertFloat64 (args "top_k")).map Float64.toInt).getD r.TopK
        Stream := (assertBool (args "stream")).getD r.Stream
        PresencePenalty := (assertFloat64 (args "presence_penalty")).getD r.PresencePenalty
        FrequencyPenalty := (assertFloat64 (args "frequency_penalty")).getD r.FrequencyPenalty
        ResponseFormat :=
          ((assertMap (args "response_format")).map (fun _ => some ())).getD r.ResponseFormat
        WebSearchOptions :=
          webSearchOptionsAfter (assertMap (args "web_search_options")) r.WebSearchOptions } := by
  simp only [applyOverrides, applyWebSearchOptions_eq, applyResponseFormat_eq,
    applyFrequencyPenalty_eq, applyPresencePenalty_eq, applyStream_eq, applyTopK_eq,
    applySearchRecencyFilter_eq, applyReturnRelatedQuestions_eq, applyReturnImages_eq,
    applySearchDomainFilter_eq, applyTopP_eq, applyTemperature_eq, applyMaxTokens_eq]

/-! ## The builder, step by step -/

theorem buildChatRequest_of_query (getenv : String → String) (args : Arguments) (q : String)
    (hq : assertString (args "query") = some q) (hne : q ≠ "") :
    buildChatRequest getenv args =
      match applyModel args (initialChatRequest getenv q) with
      | .error e => .error e
      | .ok r => .ok (normalizeOffline (applyOverrides args r)) := by
  simp [buildChatRequest, hq, hne]

theorem buildChatRequest_ok_inv (getenv : String → String) (args : Arguments)
    (r : PerplexityChatRequest) (h : buildChatRequest getenv args = .ok r) :
    ∃ q r0, assertString (args "query") = some q ∧ q ≠ "" ∧
      applyModel args (initialChatRequest getenv q) = .ok r0 ∧
      r = normalizeOffline (applyOverrides args r0) := by
  unfold buildChatRequest at h
  split at h
  · cases h
  · rename_i q hq
    split at h
    · cases h
    · rename_i hne
      split at h
      · cases h
      · rename_i r0 h0
        cases h
        exact ⟨q, r0, hq, hne, h0, rfl⟩

/-- A caller model that passes validation replaces the model, nothing else. -/
theorem applyModel_ok_inv (args : Arguments) (r r0 : PerplexityChatRequest)
    (h : applyModel args r = .ok r0) :
    r0 = { r with Model := r0.Model } ∧
      ((r0.Model = r.Model) ∨
        (assertString (args "model") = some r0.Model ∧ r0.Model ∈ validModels)) := by
  unfold applyModel at h
  split at h
  · rename_i model hm
    split at h
    · split at h
      · rename_i hv
        cases h
        refine ⟨rfl, Or.inr ⟨hm, ?_⟩⟩
        simpa using hv
      · cases h
    · cases h; exact ⟨rfl, Or.inl rfl⟩
  · cases h; exact ⟨rfl, Or.inl rfl⟩

theorem applyModel_of_valid (args : Arguments) (r : PerplexityChatRequest) (model : String)
    (hm : assertString (args "model") = some model) (hv : model ∈ validModels) :
    applyModel args r = .ok { r with Model := model } := by
  have hne : model ≠ "" := by
    rintro rfl
    revert hv
    decide
  have hany : validModels.any (fun m => model == m) = true := by
    simpa using hv
  simp [applyModel, hm, hne, hany]

theorem applyModel_of_invalid (args : Arguments) (r : PerplexityChatRequest) (model : String)
    (hm : assertString (args "model") = some model) (hne : model ≠ "")
    (hv : model ∉ validModels) :
    applyModel args r = .error ("invalid model: " ++ model) := by
  have hany : validModels.any (fun m => model == m) = false := by
    rw [Bool.eq_false_iff]
    intro h
    exact hv (by simpa using h)
  simp [applyModel, hm, hne, hany]

theorem normalizeOffline_Model (r : PerplexityChatRequest) :
    (normalizeOffline r).Model = r.Model := by
  unfold normalizeOffline; split <;> rfl

theorem normalizeOffline_MaxTokens (r : PerplexityChatRequest) :
    (normalizeOffline r).MaxTokens = r.MaxTokens := by
  unfold normalizeOffline; split <;> rfl

/-- The handler calls `performPerplexityChat` at most once, with the API key
of the environment and the request of the builder. -/
theorem handleSearchTool_calls (getenv : String → String) (up : Upstream) (args : Arguments) :
    (handleSearchTool getenv up args).calls =
      if getenv "PERPLEXITY_API_KEY" = "" then []
      else
        match buildChatRequest getenv args with
        | .error _ => []
        | .ok chatReq => [(getenv "PERPLEXITY_API_KEY", chatReq)] := by
  unfold handleSearchTool
  by_cases hk : getenv "PERPLEXITY_API_KEY" = ""
  · simp [hk]
  · simp only [hk, if_false]
    split
    · rfl
    · split <;> rfl

theorem handleSearchTool_of_build_error (getenv : String → String) (up : Upstream)
    (args : Arguments) (e : String) (hk : getenv "PERPLEXITY_API_KEY" ≠ "")
    (h : buildChatRequest getenv args = .error e) :
    (handleSearchTool getenv up args).result = .error e ∧
      (handleSearchTool getenv up args).calls = [] := by
  simp [handleSearchTool, hk, h]

/-! ## The scanner on decimal numerals -/

theorem isDigit_bounds (c : Char) (h : c.isDigit = true) : 48 ≤ c.toNat ∧ c.toNat ≤ 57 := by
  simp only [Char.isDigit, Bool.and_eq_true, decide_eq_true_eq] at h
  constructor
  · have := h.1
    simpa [Char.toNat, UInt32.le_def] using this
  · have := h.2
    simpa [Char.toNat, UInt32.le_def] using this

theorem isSpace_of_isDigit (c : Char) (h : c.isDigit = true) : isSpace c = false := by
  have hb := isDigit_bounds c h
  simp only [isSpace, Bool.or_eq_false_iff, Bool.and_eq_false_iff, beq_eq_false_iff_ne,
    decide_eq_false_iff_not]
  omega

theorem ne_of_toNat_ne (c d : Char) (h : c.toNat ≠ d.toNat) : c ≠ d := by
  rintro rfl
  exact h rfl

theorem isDigit_mem_decimalDigits (c : Char) (h : c.isDigit = true) : c ∈ decimalDigits := by
  have hb := isDigit_bounds c h
  have hc : c = Char.ofNat c.toNat := (Char.ofNat_toNat c).symm
  obtain ⟨h1, h2⟩ := hb
  rw [hc]
  interval_cases c.toNat <;> decide

theorem isDigit_not_mem_signChars (c : Char) (h : c.isDigit = true) : c ∉ signChars := by
  have hb := isDigit_bounds c h
  intro hmem
  simp only [signChars, String.toList, List.mem_cons, List.mem_singleton] at hmem
  rcases hmem with rfl | rfl | hmem
  · revert hb; decide
  · revert hb; decide
  · simp at hmem

/-- A digit or a sign at the head of the input stops `SkipSpace` at once. -/
theorem SkipSpace_cons_of_not_space (c : Char) (rest : List Char) (h : isSpace c = false) :
    SkipSpace (c :: rest) = .ok (c :: rest) := by
  have h13 : c ≠ Char.ofNat 13 := by
    rintro rfl
    revert h; decide
  have h10 : c ≠ Char.ofNat 10 := by
    rintro rfl
    revert h; decide
  simp [SkipSpace, h13, h10, h]

theorem takeWhile_decimalDigits (ds : List Char) (h : ∀ c ∈ ds, c.isDigit = true) :
    ds.takeWhile (fun x => decide (x ∈ decimalDigits)) = ds := by
  rw [List.takeWhile_eq_self_iff]
  intro c hc
  simpa using isDigit_mem_decimalDigits c (h c hc)

theorem ParseUint_digits (ds : List Char) (hne : ds ≠ []) (h : ∀ c ∈ ds, c.isDigit = true)
    (hr : decimalValue ds < 2 ^ 64) : ParseUint ds = .ok (decimalValue ds) := by
  have hall : ds.all Char.isDigit = true := by
    simpa [List.all_eq_true] using h
  have hr2 : decimalValue ds < 18446744073709551616 := by simpa using hr
  simp [ParseUint, hne, hall, hr2]

theorem ParseInt_numeral (sgn : Sign) (ds : List Char) (hne : ds ≠ [])
    (h : ∀ c ∈ ds, c.isDigit = true)
    (hlo : - (2 : Int) ^ 63 ≤ sgn.apply (decimalValue ds))
    (hhi : sgn.apply (decimalValue ds) < (2 : Int) ^ 63) :
    ParseInt (sgn.chars ++ ds) = .ok (sgn.apply (decimalValue ds)) := by
  obtain ⟨d, rest, rfl⟩ := List.exists_cons_of_ne_nil hne
  have hd : d.isDigit = true := h d (List.mem_cons_self _ _)
  have hdb := isDigit_bounds d hd
  have hplus : d ≠ '+' := by rintro rfl; revert hdb; decide
  have hminus : d ≠ '-' := by rintro rfl; revert hdb; decide
  cases sgn with
  | none =>
    simp only [Sign.apply] at hlo hhi
    have hr : decimalValue (d :: rest) < 2 ^ 64 := by omega
    have hr63 : ¬ (decimalValue (d :: rest) ≥ 2 ^ 63) := by omega
    simp only [Sign.chars, List.nil_append, ParseInt, hplus, hminus, or_self, if_false,
      ParseUint_digits (d :: rest) hne h hr, decide_False, Bool.not_false, true_and,
      Bool.false_eq_true, false_and, Sign.apply, hr63]
  | plus =>
    simp only [Sign.apply] at hlo hhi
    have hr : decimalValue (d :: rest) < 2 ^ 64 := by omega
    have hr63 : ¬ (decimalValue (d :: rest) ≥ 2 ^ 63) := by omega
    have hpm : ('+' : Char) ≠ '-' := by decide
    simp only [Sign.chars, List.singleton_append, ParseInt, hpm, true_or, if_true,
      ParseUint_digits (d :: rest) hne h hr, decide_False, Bool.not_false, true_and,
      Bool.false_eq_true, false_and, Sign.apply, hr63, if_false]
  | minus =>
    simp only [Sign.apply] at hlo hhi
    have hr : decimalValue (d :: rest) < 2 ^ 64 := by omega
    have hr63 : ¬ (decimalValue (d :: rest) > 2 ^ 63) := by omega
    simp only [Sign.chars, List.singleton_append, ParseInt, or_true, if_true,
      ParseUint_digits (d :: rest) hne h hr, decide_True, Bool.not_true,
      Bool.false_eq_true, false_and, true_and, Sign.apply, hr63, if_false]

theorem isSpace_head_numeral (sgn : Sign) (d : Char) (rest : List Char)
    (hd : d.isDigit = true) :
    ∃ c tail, sgn.chars ++ d :: rest = c :: tail ∧ isSpace c = false := by
  cases sgn with
  | none => exact ⟨d, rest, rfl, isSpace_of_isDigit d hd⟩
  | plus => exact ⟨'+', d :: rest, rfl, by decide⟩
  | minus => exact ⟨'-', d :: rest, rfl, by decide⟩

theorem scanInt_numeral (sgn : Sign) (ds : List Char) (hne : ds ≠ [])
    (h : ∀ c ∈ ds, c.isDigit = true)
    (hlo : - (2 : Int) ^ 63 ≤ sgn.apply (decimalValue ds))
    (hhi : sgn.apply (decimalValue ds) < (2 : Int) ^ 63) :
    scanInt (sgn.chars ++ ds) = .ok (sgn.apply (decimalValue ds)) := by
  have hP := ParseInt_numeral sgn ds hne h hlo hhi
  obtain ⟨d, rest, rfl⟩ := List.exists_cons_of_ne_nil hne
  have hd : d.isDigit = true := h d (List.mem_cons_self _ _)
  have hdm : d ∈ decimalDigits := isDigit_mem_decimalDigits d hd
  have hds : d ∉ signChars := isDigit_not_mem_signChars d hd
  have htw := takeWhile_decimalDigits (d :: rest) h
  cases sgn with
  | none =>
    simp only [Sign.chars, List.nil_append] at hP ⊢
    simp only [scanInt, SkipSpace_cons_of_not_space d rest (isSpace_of_isDigit d hd), hds,
      if_false, hdm, if_true, htw, List.nil_append, hP]
  | plus =>
    have hs : ('+' : Char) ∈ signChars := by decide
    simp only [Sign.chars, List.singleton_append] at hP ⊢
    simp only [scanInt, SkipSpace_cons_of_not_space '+' (d :: rest) (by decide), hs,
      if_true, hdm, htw, List.singleton_append, hP]
  | minus =>
    have hs : ('-' : Char) ∈ signChars := by decide
    simp only [Sign.chars, List.singleton_append] at hP ⊢
    simp only [scanInt, SkipSpace_cons_of_not_space '-' (d :: rest) (by decide), hs,
      if_true, hdm, htw, List.singleton_append, hP]

/-- The scanner reads a decimal numeral that fits 64 bits as its value. -/
theorem Sscanf_d_numeral (sgn : Sign) (ds : List Char) (hne : ds ≠ [])
    (h : ∀ c ∈ ds, c.isDigit = true)
    (hlo : - (2 : Int) ^ 63 ≤ sgn.apply (decimalValue ds))
    (hhi : sgn.apply (decimalValue ds) < (2 : Int) ^ 63) :
    Sscanf_d (String.mk (sgn.chars ++ ds)) = .ok (sgn.apply (decimalValue ds)) := by
  have hS := scanInt_numeral sgn ds hne h hlo hhi
  obtain ⟨d, rest, rfl⟩ := List.exists_cons_of_ne_nil hne
  obtain ⟨c, tail, hct, hsp⟩ :=
    isSpace_head_numeral sgn d rest (h d (List.mem_cons_self _ _))
  simp only [Sscanf_d, String.toList]
  rw [hct] at hS ⊢
  rw [SkipSpace_cons_of_not_space c tail hsp]
  exact hS

/-! ## The scanner on every shape of input -/

theorem mem_decimalDigits_iff (c : Char) : c ∈ decimalDigits ↔ c.isDigit = true := by
  constructor
  · intro h
    simp only [decimalDigits, String.toList, List.mem_cons, List.mem_singleton] at h
    rcases h with rfl | rfl | rfl | rfl | rfl | rfl | rfl | rfl | rfl | rfl | h
    all_goals first | decide | (simp at h)
  · exact isDigit_mem_decimalDigits c

theorem takeWhile_digits_append (ds tail : List Char) (hd : ∀ c ∈ ds, c.isDigit = true)
    (ht : ∀ c t, tail = c :: t → c.isDigit = false) :
    (ds ++ tail).takeWhile (fun x => decide (x ∈ decimalDigits)) = ds := by
  induction ds with
  | nil =>
    cases tail with
    | nil => rfl
    | cons c t =>
      have hc : c ∉ decimalDigits := by
        rw [mem_decimalDigits_iff, ht c t rfl]
        simp
      simp [List.takeWhile, hc]
  | cons d rest ih =>
    have hdm : d ∈ decimalDigits := isDigit_mem_decimalDigits d (hd d (List.mem_cons_self _ _))
    have ih2 := ih (fun c hc => hd c (List.mem_cons_of_mem _ hc))
    simp [List.takeWhile, hdm, ih2]

theorem ParseUint_of_digits (ds : List Char) (hne : ds ≠ [])
    (h : ∀ c ∈ ds, c.isDigit = true) :
    ParseUint ds =
      if decimalValue ds < 2 ^ 64 then .ok (decimalValue ds)
      else .error "value out of range" := by
  have hall : ds.all Char.isDigit = true := by
    simpa [List.all_eq_true] using h
  simp [ParseUint, hne, hall]

/-- The conversion of a token made of a sign and digits: its value when it
fits `int64`, the range error otherwise. -/
theorem ParseInt_token (sgn : Sign) (ds : List Char) (hne : ds ≠ [])
    (h : ∀ c ∈ ds, c.isDigit = true) :
    ParseInt (sgn.chars ++ ds) =
      if - (2 : Int) ^ 63 ≤ sgn.apply (decimalValue ds) ∧
          sgn.apply (decimalValue ds) < (2 : Int) ^ 63 then
        .ok (sgn.apply (decimalValue ds))
      else .error "value out of range" := by
  by_cases hr : - (2 : Int) ^ 63 ≤ sgn.apply (decimalValue ds) ∧
      sgn.apply (decimalValue ds) < (2 : Int) ^ 63
  · rw [if_pos hr]
    exact ParseInt_numeral sgn ds hne h hr.1 hr.2
  · rw [if_neg hr]
    obtain ⟨d, rest, rfl⟩ := List.exists_cons_of_ne_nil hne
    have hd : d.isDigit = true := h d (List.mem_cons_self _ _)
    have hdb := isDigit_bounds d hd
    have hplus : d ≠ '+' := by rintro rfl; revert hdb; decide
    have hminus : d ≠ '-' := by rintro rfl; revert hdb; decide
    have hU := ParseUint_of_digits (d :: rest) hne h
    cases sgn with
    | none =>
      simp only [Sign.apply] at hr
      simp only [Sign.chars, List.nil_append, ParseInt, hplus, hminus, or_self, if_false, hU]
      by_cases h64 : decimalValue (d :: rest) < 18446744073709551616
      · have h63 : 9223372036854775808 ≤ decimalValue (d :: rest) := by omega
        simp [h64, h63]
      · simp [h64]
    | plus =>
      simp only [Sign.apply] at hr
      have hpm : ('+' : Char) ≠ '-' := by decide
      simp only [Sign.chars, List.singleton_append, ParseInt, hpm, true_or, if_true, hU]
      by_cases h64 : decimalValue (d :: rest) < 18446744073709551616
      · have h63 : 9223372036854775808 ≤ decimalValue (d :: rest) := by omega
        simp [h64, h63]
      · simp [h64]
    | minus =>
      simp only [Sign.apply] at hr
      simp only [Sign.chars, List.singleton_append, ParseInt, or_true, if_true, hU]
      by_cases h64 : decimalValue (d :: rest) < 18446744073709551616
      · have h63 : 9223372036854775808 < decimalValue (d :: rest) := by omega
        simp [h64, h63]
      · simp [h64]

/-- The scanner takes the sign and the whole run of digits as its token and
leaves what follows unread. -/
theorem scanInt_token (sgn : Sign) (ds tail : List Char) (hne : ds ≠ [])
    (h : ∀ c ∈ ds, c.isDigit = true) (ht : ∀ c t, tail = c :: t → c.isDigit = false) :
    scanInt (sgn.chars ++ ds ++ tail) = ParseInt (sgn.chars ++ ds) := by
  obtain ⟨d, rest, rfl⟩ := List.exists_cons_of_ne_nil hne
  have hd : d.isDigit = true := h d (List.mem_cons_self _ _)
  have hdm : d ∈ decimalDigits := isDigit_mem_decimalDigits d hd
  have hds : d ∉ signChars := isDigit_not_mem_signChars d hd
  have htw := takeWhile_digits_append (d :: rest) tail h ht
  simp only [List.cons_append] at htw
  cases sgn with
  | none =>
    simp only [Sign.chars, List.nil_append, List.cons_append]
    simp only [scanInt, SkipSpace_cons_of_not_space d (rest ++ tail) (isSpace_of_isDigit d hd),
      hds, if_false, hdm, if_true, htw, List.nil_append]
  | plus =>
    have hs : ('+' : Char) ∈ signChars := by decide
    simp only [Sign.chars, List.singleton_append, List.cons_append, List.nil_append]
    simp only [scanInt, SkipSpace_cons_of_not_space '+' (d :: (rest ++ tail)) (by decide), hs,
      if_true, hdm, htw, List.singleton_append]
  | minus =>
    have hs : ('-' : Char) ∈ signChars := by decide
    simp only [Sign.chars, List.singleton_append, List.cons_append, List.nil_append]
    simp only [scanInt, SkipSpace_cons_of_not_space '-' (d :: (rest ++ tail)) (by decide), hs,
      if_true, hdm, htw, List.singleton_append]

theorem SkipSpace_blanks (ws rest : List Char) (h : ∀ c ∈ ws, isBlank c = true) :
    SkipSpace (ws ++ rest) = SkipSpace rest := by
  induction ws with
  | nil => rfl
  | cons c ws ih =>
    have hc := h c (List.mem_cons_self _ _)
    simp only [isBlank, Bool.and_eq_true, Bool.not_eq_true', beq_eq_false_iff_ne, ne_eq] at hc
    have ih2 := ih (fun x hx => h x (List.mem_cons_of_mem _ hx))
    show SkipSpace (c :: (ws ++ rest)) = SkipSpace rest
    simp only [SkipSpace]
    split
    · exact ih2
    · rw [if_neg hc.2, if_pos hc.1]
      exact ih2

/-- A value that begins, after blanks, with an optional sign and a run of
digits is scanned as the integer so written when that fits `int64`, whatever
follows the digits, and gives the range error when it does not fit. -/
theorem Sscanf_d_leading_integer (ws : List Char) (sgn : Sign) (ds tail : List Char)
    (hws : ∀ c ∈ ws, isBlank c = true) (hne : ds ≠ [])
    (h : ∀ c ∈ ds, c.isDigit = true) (ht : ∀ c t, tail = c :: t → c.isDigit = false) :
    Sscanf_d (String.mk (ws ++ sgn.chars ++ ds ++ tail)) =
      if - (2 : Int) ^ 63 ≤ sgn.apply (decimalValue ds) ∧
          sgn.apply (decimalValue ds) < (2 : Int) ^ 63 then
        .ok (sgn.apply (decimalValue ds))
      else .error "value out of range" := by
  have hS := scanInt_token sgn ds tail hne h ht
  rw [ParseInt_token sgn ds hne h] at hS
  obtain ⟨d, rest, rfl⟩ := List.exists_cons_of_ne_nil hne
  obtain ⟨c, tl, hct, hsp⟩ :=
    isSpace_head_numeral sgn d (rest ++ tail) (h d (List.mem_cons_self _ _))
  have hshape : sgn.chars ++ (d :: rest) ++ tail = c :: tl := by
    rw [← hct]; simp
  simp only [Sscanf_d, String.toList]
  rw [List.append_assoc, List.append_assoc, ← List.append_assoc sgn.chars, SkipSpace_blanks _ _ hws]
  rw [hshape] at hS ⊢
  rw [SkipSpace_cons_of_not_space c tl hsp]
  exact hS

/-- A value in which, after blanks and at most one sign, no digit follows is an
error of the scanner. -/
theorem Sscanf_d_no_integer (ws : List Char) (sgn : Sign) (tail : List Char)
    (hws : ∀ c ∈ ws, isBlank c = true)
    (ht : ∀ c t, tail = c :: t →
      c.isDigit = false ∧ (sgn = Sign.none → isBlank c = false ∧ c ∉ signChars)) :
    ∃ e, Sscanf_d (String.mk (ws ++ sgn.chars ++ tail)) = .error e := by
  simp only [Sscanf_d, String.toList]
  rw [List.append_assoc, SkipSpace_blanks _ _ hws]
  cases sgn with
  | none =>
    simp only [Sign.chars, List.nil_append]
    cases tail with
    | nil => exact ⟨"EOF", by simp [SkipSpace, scanInt]⟩
    | cons c t =>
      obtain ⟨hdig, hrest⟩ := ht c t rfl
      obtain ⟨hblank, hsign⟩ := hrest rfl
      have hnd : c ∉ decimalDigits := by
        rw [mem_decimalDigits_iff, hdig]; simp
      by_cases hnl : c = Char.ofNat 10
      · subst hnl
        exact ⟨"unexpected newline", by simp [SkipSpace]⟩
      · have hsp : isSpace c = false := by
          simp only [isBlank, Bool.and_eq_false_iff, Bool.not_eq_false', beq_iff_eq] at hblank
          rcases hblank with h1 | h1
          · exact h1
          · exact absurd h1 hnl
        refine ⟨"expected integer", ?_⟩
        simp only [SkipSpace_cons_of_not_space c t hsp, scanInt, hsign, if_false, hnd]
  | plus =>
    have hs : ('+' : Char) ∈ signChars := by decide
    simp only [Sign.chars, List.singleton_append]
    rw [SkipSpace_cons_of_not_space '+' tail (by decide)]
    cases tail with
    | nil =>
      exact ⟨"EOF", by simp only [scanInt, SkipSpace_cons_of_not_space '+' [] (by decide), hs,
        if_true]⟩
    | cons c t =>
      obtain ⟨hdig, -⟩ := ht c t rfl
      have hnd : c ∉ decimalDigits := by
        rw [mem_decimalDigits_iff, hdig]; simp
      exact ⟨"expected integer", by
        simp only [scanInt, SkipSpace_cons_of_not_space '+' (c :: t) (by decide), hs, if_true,
          hnd, if_false]⟩
  | minus =>
    have hs : ('-' : Char) ∈ signChars := by decide
    simp only [Sign.chars, List.singleton_append]
    rw [SkipSpace_cons_of_not_space '-' tail (by decide)]
    cases tail with
    | nil =>
      exact ⟨"EOF", by simp only [scanInt, SkipSpace_cons_of_not_space '-' [] (by decide), hs,
        if_true]⟩
    | cons c t =>
      obtain ⟨hdig, -⟩ := ht c t rfl
      have hnd : c ∉ decimalDigits := by
        rw [mem_decimalDigits_iff, hdig]; simp
      exact ⟨"expected integer", by
        simp only [scanInt, SkipSpace_cons_of_not_space '-' (c :: t) (by decide), hs, if_true,
          hnd, if_false]⟩

/-! ## Conversion of integer-valued floats -/

theorem natDiv_of_ratDiv (M k : Nat) (z : Int) (h : (M : ℚ) / 2 ^ k = (z : ℚ)) :
    ((M / 2 ^ k : Nat) : Int) = z := by
  have hpos : (2 : ℚ) ^ k ≠ 0 := by positivity
  have h1 : (M : ℚ) = (z : ℚ) * 2 ^ k := by
    field_simp at h
    exact h
  have h2 : (M : Int) = z * 2 ^ k := by exact_mod_cast h1
  have hpz : (2 : Int) ^ k ≠ 0 := by positivity
  rw [Int.natCast_div, h2]
  simp [Int.mul_ediv_cancel _ hpz]

theorem Float64.truncMag_of_magnitude (f : Float64) (z : Int)
    (h : f.magnitude = (z : ℚ)) : (f.truncMag : Int) = z := by
  unfold Float64.magnitude at h
  unfold Float64.truncMag
  split at h
  · rename_i hle
    rw [if_pos hle]
    exact_mod_cast h
  · rename_i hle
    rw [if_neg hle]
    exact natDiv_of_ratDiv _ _ _ h

/-- On a float64 whose value is an integer in the range of `int`, the
conversion `int(f)` yields that integer. -/
theorem Float64.toInt_of_toRat (f : Float64) (m : Int) (h : f.toRat = some (m : ℚ))
    (hlo : - (2 : Int) ^ 63 ≤ m) (hhi : m < (2 : Int) ^ 63) : f.toInt = m := by
  unfold Float64.toRat at h
  split at h
  · rename_i hfin
    simp only [Option.some.injEq] at h
    unfold Float64.toInt
    rw [if_pos hfin]
    by_cases hs : f.sign = true
    · rw [if_pos hs] at h
      have hz : f.magnitude = ((-m : Int) : ℚ) := by
        push_cast
        linarith
      have ht := Float64.truncMag_of_magnitude f (-m) hz
      simp only [hs, if_true, ht, neg_neg]
      rw [if_pos ⟨hlo, hhi⟩]
    · rw [if_neg hs] at h
      have ht := Float64.truncMag_of_magnitude f m h
      simp only [hs, if_false, ht, Bool.false_eq_true]
      rw [if_pos ⟨hlo, hhi⟩]
  · cases h


/-! ## The float constants of the defaults -/

/-- The constant written 0.2 is the float64 nearest to 1/5: it is within half
a unit in the last place, 2^-56, of it. -/
theorem float_0_2_nearest :
    ∃ v : ℚ, float_0_2.toRat = some v ∧ |v - 1 / 5| ≤ 1 / 2 ^ 56 := by
  refine ⟨3602879701896397 / 2 ^ 54, ?_, ?_⟩
  · simp [Float64.toRat, Float64.isFinite, Float64.expo, Float64.sign, Float64.magnitude,
      Float64.ulpExp, Float64.mant, Float64.frac, float_0_2]
    norm_num
  · rw [abs_le]
    constructor <;> norm_num

/-- The constant written 0.9 is the float64 nearest to 9/10: it is within half
a unit in the last place, 2^-54, of it. -/
theorem float_0_9_nearest :
    ∃ v : ℚ, float_0_9.toRat = some v ∧ |v - 9 / 10| ≤ 1 / 2 ^ 54 := by
  refine ⟨8106479329266893 / 2 ^ 53, ?_, ?_⟩
  · simp [Float64.toRat, Float64.isFinite, Float64.expo, Float64.sign, Float64.magnitude,
      Float64.ulpExp, Float64.mant, Float64.frac, float_0_9]
  · rw [abs_le]
    constructor <;> norm_num

theorem float_1_0_value : float_1_0.toRat = some 1 := by
  simp [Float64.toRat, Float64.isFinite, Float64.expo, Float64.sign, Float64.magnitude,
    Float64.ulpExp, Float64.mant, Float64.frac, float_1_0]
  norm_num

theorem float_0_0_value : float_0_0.toRat = some 0 ∧ float_0_0.isZero = true := by
  constructor
  · simp [Float64.toRat, Float64.isFinite, Float64.expo, Float64.sign, Float64.magnitude,
      Float64.ulpExp, Float64.mant, Float64.frac, float_0_0]
  · decide

theorem float_42_value : float_42.toRat = some 42 := by
  simp [Float64.toRat, Float64.isFinite, Float64.expo, Float64.sign, Float64.magnitude,
    Float64.ulpExp, Float64.mant, Float64.frac, float_42]
  norm_num

/-! ## Two facts on the code paths behind C1 and C6 -/

/-- The filled domain filter has one entry for every element of the input,
string or not. -/
theorem fillDomainFilter_length (xs : List Value) :
    (fillDomainFilter xs).length = xs.length := by
  simp [fillDomainFilter]

/-- The scan stops at the first character that is not a digit and reports no
error: a value that only begins with an integer is read as that integer. -/
theorem Sscanf_d_reads_leading_integer :
    Sscanf_d "12abc" = .ok 12 ∧ Sscanf_d " 12.5" = .ok 12 ∧
      Sscanf_d "1_000" = .ok 1 ∧ Sscanf_d "1e3" = .ok 1 ∧
      Sscanf_d "abc" = .error "expected integer" := by
  decide

/-! ## C1 -/

/-- C1, the code at the failing input: for the bag with query "q" and
`search_domain_filter` = ["a.com", 42, "b.com"] the builder succeeds and the
request's SearchDomainFilter is ["a.com", "", "b.com"]: the element that is not
a string leaves an empty string at its index, so the result has the length of
the input and is not the subsequence ["a.com", "b.com"] of its strings. -/
theorem C1_domain_filter_keeps_gap :
    (buildChatRequest (fun _ => "") bagDomainFilter).toOption.map (·.SearchDomainFilter)
        = some (some ["a.com", "", "b.com"]) ∧
      (buildChatRequest (fun _ => "") bagDomainFilter).toOption.map (·.SearchDomainFilter)
        ≠ some (some ["a.com", "b.com"]) := by
  decide

/-! ## C2 -/

theorem applyModel_of_not_supplied (args : Arguments) (r : PerplexityChatRequest)
    (h : assertString (args "model") = none ∨ assertString (args "model") = some "") :
    applyModel args r = .ok r := by
  rcases h with h | h <;> simp [applyModel, h]

theorem applyOverrides_erase_model (args : Arguments) (r : PerplexityChatRequest) :
    applyOverrides (args.erase "model") r = applyOverrides args r := by
  simp only [applyOverrides_eq, Arguments.erase, String.reduceEq, if_false]

/-- C2 as stated fails, with the API key configured and a valid query: the bag
whose `model` is "" and the bag whose `model` is the number 42 supply a model
value that is none of the six identifiers, yet the builder does not fail; it
builds a request with the default model, which the handler hands on. -/
theorem C2_counterexample_empty_model :
    envKeyOnly "PERPLEXITY_API_KEY" = "key" ∧
      assertString (bagEmptyModel "query") = some "q" ∧
      assertString (bagEmptyModel "model") = some "" ∧ "" ∉ validModels ∧
      (buildChatRequest envKeyOnly bagEmptyModel).toOption.map (·.Model) = some "sonar-pro" ∧
      (handleSearchTool envKeyOnly upstreamDown bagEmptyModel).calls.map (fun c => c.2.Model)
        = ["sonar-pro"] ∧
      assertFloat64 (bagNumericModel "model") = some float_42 ∧
      (buildChatRequest envKeyOnly bagNumericModel).toOption.map (·.Model)
        = some "sonar-pro" ∧
      (handleSearchTool envKeyOnly upstreamDown bagNumericModel).calls.map (fun c => c.2.Model)
        = ["sonar-pro"] := by
  decide

/-- C2, amended: with the API key configured and a valid query, (1) when the
caller's `model` is a non-empty string outside the six identifiers, the
builder fails with the invalid-model error and the handler returns that error
without handing any request to performPerplexityChat; (2) when the caller's
`model` is the empty string or is not a string, it is not rejected: the builder
behaves as on the same bag without `model`, and builds a request whose Model is
the value of PERPLEXITY_MODEL if set, else sonar-pro, which the handler hands
to performPerplexityChat. -/
theorem C2_invalid_model_rejected (getenv : String → String) (up : Upstream) (args : Arguments)
    (q : String) (hq : assertString (args "query") = some q) (hqne : q ≠ "")
    (hk : getenv "PERPLEXITY_API_KEY" ≠ "") :
    (∀ model, args "model" = some (.string model) → model ≠ "" → model ∉ validModels →
        buildChatRequest getenv args = .error ("invalid model: " ++ model) ∧
        (handleSearchTool getenv up args).result = .error ("invalid model: " ++ model) ∧
        (handleSearchTool getenv up args).calls = []) ∧
      (∀ v, args "model" = some v → (v = .string "" ∨ ∀ s, v ≠ .string s) →
        buildChatRequest getenv args = buildChatRequest getenv (args.erase "model") ∧
        ∃ r, buildChatRequest getenv args = .ok r ∧
          r.Model = (if getenv "PERPLEXITY_MODEL" ≠ "" then getenv "PERPLEXITY_MODEL"
            else "sonar-pro") ∧
          (handleSearchTool getenv up args).calls = [(getenv "PERPLEXITY_API_KEY", r)]) := by
  constructor
  · intro model hm hne hv
    have hb : buildChatRequest getenv args = .error ("invalid model: " ++ model) := by
      rw [buildChatRequest_of_query getenv args q hq hqne,
        applyModel_of_invalid args _ model (by simp [hm, assertString]) hne hv]
    exact ⟨hb, handleSearchTool_of_build_error getenv up args _ hk hb⟩
  · intro v hm hv
    have hns : assertString (args "model") = none ∨ assertString (args "model") = some "" := by
      rw [hm]
      rcases hv with rfl | hv
      · exact Or.inr rfl
      · cases v with
        | string s => exact absurd rfl (hv s)
        | _ => exact Or.inl rfl
    have hb : buildChatRequest getenv args
        = .ok (normalizeOffline (applyOverrides args (initialChatRequest getenv q))) := by
      rw [buildChatRequest_of_query getenv args q hq hqne, applyModel_of_not_supplied args _ hns]
    have hq2 : assertString ((args.erase "model") "query") = some q := by
      simpa [Arguments.erase] using hq
    have hb2 : buildChatRequest getenv (args.erase "model")
        = .ok (normalizeOffline (applyOverrides args (initialChatRequest getenv q))) := by
      rw [buildChatRequest_of_query getenv _ q hq2 hqne,
        applyModel_of_not_supplied _ _ (Or.inl (by simp [Arguments.erase, assertString]))]
      simp only [applyOverrides_erase_model]
    refine ⟨hb.trans hb2.symm, _, hb, ?_, ?_⟩
    · rw [normalizeOffline_Model, applyOverrides_eq]
      simp only [initialChatRequest, resolveDefaultModel, ModelSonarPro]
    · rw [handleSearchTool_calls, if_neg hk, hb]

theorem C2_invalid_model_rejected_witness :
    (buildChatRequest envKeyOnly bagBogusModel = .error "invalid model: gpt-4" ∧
        (handleSearchTool envKeyOnly upstreamDown bagBogusModel).result
          = .error "invalid model: gpt-4" ∧
        (handleSearchTool envKeyOnly upstreamDown bagBogusModel).calls = []) ∧
      (buildChatRequest envKeyOnly bagNumericModel
          = buildChatRequest envKeyOnly (bagNumericModel.erase "model") ∧
        ∃ r, buildChatRequest envKeyOnly bagNumericModel = .ok r ∧
          r.Model = (if envKeyOnly "PERPLEXITY_MODEL" ≠ "" then envKeyOnly "PERPLEXITY_MODEL"
            else "sonar-pro") ∧
          (handleSearchTool envKeyOnly upstreamDown bagNumericModel).calls
            = [(envKeyOnly "PERPLEXITY_API_KEY", r)]) :=
  ⟨(C2_invalid_model_rejected envKeyOnly upstreamDown bagBogusModel "q"
      (by decide) (by decide) (by decide)).1 "gpt-4" (by rfl) (by decide) (by decide),
    (C2_invalid_model_rejected envKeyOnly upstreamDown bagNumericModel "q"
      (by decide) (by decide) (by decide)).2 (.number float_42) (by rfl)
      (Or.inr (by intro s h; cases h))⟩

/-! ## C3 -/

/-- C3: when the query is valid and the caller's `model` is one of the six
identifiers, the builder succeeds and the request's Model is the caller's
string, for every environment (so whatever PERPLEXITY_MODEL holds). -/
theorem C3_valid_model_used (getenv : String → String) (args : Arguments) (q model : String)
    (hq : assertString (args "query") = some q) (hqne : q ≠ "")
    (hm : args "model" = some (.string model)) (hv : model ∈ validModels) :
    ∃ r, buildChatRequest getenv args = .ok r ∧ r.Model = model := by
  refine ⟨normalizeOffline (applyOverrides args
    { initialChatRequest getenv q with Model := model }), ?_, ?_⟩
  · rw [buildChatRequest_of_query getenv args q hq hqne,
      applyModel_of_valid args _ model (by simp [hm, assertString]) hv]
  · rw [normalizeOffline_Model, applyOverrides_eq]

theorem C3_valid_model_used_witness :
    ∃ r, buildChatRequest envModelR1 bagSonar = .ok r ∧ r.Model = "sonar" :=
  C3_valid_model_used envModelR1 bagSonar "q" "sonar" (by decide) (by decide) (by rfl)
    (by decide)

/-! ## C4 -/

theorem normalizeOffline_cleared (r : PerplexityChatRequest)
    (h : (normalizeOffline r).Model = ModelR1) :
    (normalizeOffline r).SearchDomainFilter = none ∧
      (normalizeOffline r).SearchRecencyFilter = "" ∧
      (normalizeOffline r).ReturnImages = false ∧
      (normalizeOffline r).ReturnRelatedQuestions = false ∧
      (normalizeOffline r).WebSearchOptions = none := by
  rw [normalizeOffline_Model] at h
  simp [normalizeOffline, h]

/-- C4: every request that handleSearchTool hands to performPerplexityChat
with Model r1-1776 has SearchDomainFilter nil, SearchRecencyFilter empty,
ReturnImages false, ReturnRelatedQuestions false and WebSearchOptions nil, for
every environment and every argument bag (so wherever the model came from and
whatever the caller supplied for those fields). -/
theorem C4_offline_model_cleared (getenv : String → String) (up : Upstream) (args : Arguments)
    (apiKey : String) (req : PerplexityChatRequest)
    (hcall : (apiKey, req) ∈ (handleSearchTool getenv up args).calls)
    (hmodel : req.Model = ModelR1) :
    req.SearchDomainFilter = none ∧ req.SearchRecencyFilter = "" ∧
      req.ReturnImages = false ∧ req.ReturnRelatedQuestions = false ∧
      req.WebSearchOptions = none := by
  rw [handleSearchTool_calls] at hcall
  split at hcall
  · simp at hcall
  · split at hcall
    · simp at hcall
    · rename_i chatReq hb
      simp only [List.mem_singleton, Prod.mk.injEq] at hcall
      obtain ⟨-, rfl⟩ := hcall
      obtain ⟨q, r0, -, -, -, rfl⟩ := buildChatRequest_ok_inv getenv args _ hb
      exact normalizeOffline_cleared _ hmodel

theorem C4_offline_model_cleared_witness :
    ("key", requestOfflineSample) ∈ (handleSearchTool envModelR1 upstreamDown bagSearchy).calls ∧
      requestOfflineSample.Model = ModelR1 ∧
      (requestOfflineSample.SearchDomainFilter = none ∧
        requestOfflineSample.SearchRecencyFilter = "" ∧
        requestOfflineSample.ReturnImages = false ∧
        requestOfflineSample.ReturnRelatedQuestions = false ∧
        requestOfflineSample.WebSearchOptions = none) :=
  ⟨by decide, by decide,
    C4_offline_model_cleared envModelR1 upstreamDown bagSearchy "key" requestOfflineSample
      (by decide) (by decide)⟩

/-! ## C5 -/

/-- C5: with the API key configured, when `query` is absent, is not a string,
or is the empty string, the handler returns the error "invalid or empty query
parameter" and hands no request to performPerplexityChat; the builder yields
that error and no request, whatever else the bag holds. -/
theorem C5_query_validation (getenv : String → String) (up : Upstream) (args : Arguments)
    (hk : getenv "PERPLEXITY_API_KEY" ≠ "")
    (hquery : args "query" = none ∨ (∃ v, args "query" = some v ∧ ∀ s, v ≠ .string s) ∨
      args "query" = some (.string "")) :
    buildChatRequest getenv args = .error "invalid or empty query parameter" ∧
      (handleSearchTool getenv up args).result = .error "invalid or empty query parameter" ∧
      (handleSearchTool getenv up args).calls = [] := by
  have hb : buildChatRequest getenv args = .error "invalid or empty query parameter" := by
    rcases hquery with h | ⟨v, h, hv⟩ | h
    · simp [buildChatRequest, h, assertString]
    · cases v with
      | string s => exact absurd rfl (hv s)
      | _ => simp [buildChatRequest, h, assertString]
    · simp [buildChatRequest, h, assertString]
  exact ⟨hb, handleSearchTool_of_build_error getenv up args _ hk hb⟩

theorem C5_query_validation_witness :
    buildChatRequest envKeyOnly bagNumericQuery = .error "invalid or empty query parameter" ∧
      (handleSearchTool envKeyOnly upstreamDown bagNumericQuery).result
        = .error "invalid or empty query parameter" ∧
      (handleSearchTool envKeyOnly upstreamDown bagNumericQuery).calls = [] :=
  C5_query_validation envKeyOnly upstreamDown bagNumericQuery (by decide)
    (Or.inr (Or.inl ⟨.number float_42, rfl, by intro s h; cases h⟩))

/-! ## What the builder reads from the environment -/

theorem initialChatRequest_setenv_maxTokens (getenv : String → String) (q v : String)
    (h : resolveDefaultMaxTokens (setenv getenv "DEFAULT_MAX_TOKENS" v)
      = resolveDefaultMaxTokens getenv) :
    initialChatRequest (setenv getenv "DEFAULT_MAX_TOKENS" v) q = initialChatRequest getenv q := by
  have h1 : setenv getenv "DEFAULT_MAX_TOKENS" v "PERPLEXITY_MODEL" = getenv "PERPLEXITY_MODEL" := by
    simp [setenv]
  have h2 : setenv getenv "DEFAULT_MAX_TOKENS" v "DEFAULT_SEARCH_CONTEXT_SIZE"
      = getenv "DEFAULT_SEARCH_CONTEXT_SIZE" := by
    simp [setenv]
  simp only [initialChatRequest, resolveDefaultModel, resolveDefaultSearchContextSize, h, h1, h2]

theorem buildChatRequest_congr_initial (e1 e2 : String → String) (args : Arguments)
    (h : ∀ q, initialChatRequest e1 q = initialChatRequest e2 q) :
    buildChatRequest e1 args = buildChatRequest e2 args := by
  simp only [buildChatRequest, h]

theorem handleSearchTool_congr_build (e1 e2 : String → String) (up : Upstream)
    (args : Arguments) (hk : e1 "PERPLEXITY_API_KEY" = e2 "PERPLEXITY_API_KEY")
    (hb : buildChatRequest e1 args = buildChatRequest e2 args) :
    handleSearchTool e1 up args = handleSearchTool e2 up args := by
  simp only [handleSearchTool, hk, hb]

/-- The max tokens of a built request: the caller's number when there is one,
else the resolved default. -/
theorem buildChatRequest_MaxTokens (getenv : String → String) (args : Arguments)
    (r : PerplexityChatRequest) (h : buildChatRequest getenv args = .ok r) :
    r.MaxTokens =
      ((assertFloat64 (args "max_tokens")).map Float64.toInt).getD
        (resolveDefaultMaxTokens getenv) := by
  obtain ⟨q, r0, -, -, h0, rfl⟩ := buildChatRequest_ok_inv getenv args r h
  obtain ⟨hr0, -⟩ := applyModel_ok_inv args _ r0 h0
  rw [normalizeOffline_MaxTokens, applyOverrides_eq, hr0]
  rfl

/-! ## C6 -/

theorem resolveDefaultMaxTokens_of_error (getenv : String → String) (e : String)
    (herr : Sscanf_d (getenv "DEFAULT_MAX_TOKENS") = .error e) :
    resolveDefaultMaxTokens getenv = 2000 := by
  unfold resolveDefaultMaxTokens
  simp only []
  split
  · rw [herr]
  · rfl

theorem resolveDefaultMaxTokens_of_ok (getenv : String → String) (n : Int)
    (hset : getenv "DEFAULT_MAX_TOKENS" ≠ "")
    (hok : Sscanf_d (getenv "DEFAULT_MAX_TOKENS") = .ok n) :
    resolveDefaultMaxTokens getenv = n := by
  unfold resolveDefaultMaxTokens
  simp only []
  rw [if_pos hset, hok]

/-- A variable that leaves the resolved default at 2000 is ignored. -/
theorem maxTokensVariableIgnored_of_resolved (getenv : String → String) (up : Upstream)
    (args : Arguments) (h2000 : resolveDefaultMaxTokens getenv = 2000) :
    MaxTokensVariableIgnored getenv up args := by
  have hunset : resolveDefaultMaxTokens (setenv getenv "DEFAULT_MAX_TOKENS" "") = 2000 := by
    simp [resolveDefaultMaxTokens, setenv]
  have hb : buildChatRequest getenv args
      = buildChatRequest (setenv getenv "DEFAULT_MAX_TOKENS" "") args :=
    (buildChatRequest_congr_initial _ _ args (fun q =>
      initialChatRequest_setenv_maxTokens getenv q "" (by rw [hunset, h2000]))).symm
  refine ⟨h2000, hb, ?_, ?_⟩
  · exact handleSearchTool_congr_build _ _ up args (by simp [setenv]) hb
  · intro r hr hnone
    rw [buildChatRequest_MaxTokens getenv args r hr, hnone, h2000]
    rfl

theorem string_mk_ne_empty_of_digits (pre ds tail : List Char) (hne : ds ≠ []) :
    String.mk (pre ++ ds ++ tail) ≠ "" := by
  intro h
  have h2 := congrArg String.data h
  obtain ⟨d, rest, rfl⟩ := List.exists_cons_of_ne_nil hne
  simp at h2

/-- C6 as stated fails, with the API key configured and no caller
`max_tokens`: the value "12abc" of DEFAULT_MAX_TOKENS is not a decimal numeral,
so not parseable as an integer, yet it is not ignored: the built request, which
the handler hands on, has MaxTokens 12 and not 2000. -/
theorem C6_counterexample_leading_integer :
    envMaxTokens12abc "PERPLEXITY_API_KEY" = "key" ∧
      envMaxTokens12abc "DEFAULT_MAX_TOKENS" = "12abc" ∧
      isDecimalNumeral "12abc".toList = false ∧
      (bagQueryOnly "max_tokens").isNone = true ∧
      (buildChatRequest envMaxTokens12abc bagQueryOnly).toOption.map (·.MaxTokens)
        = some 12 ∧
      (handleSearchTool envMaxTokens12abc upstreamDown bagQueryOnly).calls.map
        (fun c => c.2.MaxTokens) = [12] := by
  decide

/-- C6, amended.  (1) When, in the value of DEFAULT_MAX_TOKENS, no decimal
digit follows the leading blanks and at most one sign, the handler ignores the
variable: the resolved default stays 2000, the builder and the handler behave
as with the variable unset (so the request is not failed because of it), and a
request built from a bag without `max_tokens` has MaxTokens 2000.  (2) When the
value begins, after blanks and an optional sign, with a run of digits, followed
by any text: if the number n so written is outside -2^63 ≤ n < 2^63 the
variable is ignored in the same way, and if it is inside, the variable is used:
a request built from a bag without `max_tokens` has MaxTokens n. -/
theorem C6_max_tokens_without_integer_ignored (getenv : String → String) (up : Upstream)
    (args : Arguments) :
    (∀ (ws : List Char) (sgn : Sign) (tail : List Char),
        getenv "DEFAULT_MAX_TOKENS" = String.mk (ws ++ sgn.chars ++ tail) →
        (∀ c ∈ ws, isBlank c = true) →
        (∀ c t, tail = c :: t →
          c.isDigit = false ∧ (sgn = Sign.none → isBlank c = false ∧ c ∉ signChars)) →
        MaxTokensVariableIgnored getenv up args) ∧
      (∀ (ws : List Char) (sgn : Sign) (ds tail : List Char),
        getenv "DEFAULT_MAX_TOKENS" = String.mk (ws ++ sgn.chars ++ ds ++ tail) →
        (∀ c ∈ ws, isBlank c = true) → ds ≠ [] → (∀ c ∈ ds, c.isDigit = true) →
        (∀ c t, tail = c :: t → c.isDigit = false) →
        (¬ (- (2 : Int) ^ 63 ≤ sgn.apply (decimalValue ds) ∧
            sgn.apply (decimalValue ds) < (2 : Int) ^ 63) →
          MaxTokensVariableIgnored getenv up args) ∧
        ((- (2 : Int) ^ 63 ≤ sgn.apply (decimalValue ds) ∧
            sgn.apply (decimalValue ds) < (2 : Int) ^ 63) →
          ∀ r, buildChatRequest getenv args = .ok r → args "max_tokens" = none →
            r.MaxTokens = sgn.apply (decimalValue ds))) := by
  constructor
  · intro ws sgn tail henv hws ht
    obtain ⟨e, he⟩ := Sscanf_d_no_integer ws sgn tail hws ht
    rw [← henv] at he
    exact maxTokensVariableIgnored_of_resolved getenv up args
      (resolveDefaultMaxTokens_of_error getenv e he)
  · intro ws sgn ds tail henv hws hne hdig ht
    have hscan := Sscanf_d_leading_integer ws sgn ds tail hws hne hdig ht
    rw [← henv] at hscan
    constructor
    · intro hout
      rw [if_neg hout] at hscan
      exact maxTokensVariableIgnored_of_resolved getenv up args
        (resolveDefaultMaxTokens_of_error getenv _ hscan)
    · intro hin r hb hnone
      rw [if_pos hin] at hscan
      have hset : getenv "DEFAULT_MAX_TOKENS" ≠ "" := by
        rw [henv]
        exact string_mk_ne_empty_of_digits (ws ++ sgn.chars) ds tail hne
      rw [buildChatRequest_MaxTokens getenv args r hb, hnone,
        resolveDefaultMaxTokens_of_ok getenv _ hset hscan]
      rfl

theorem C6_max_tokens_without_integer_ignored_witness :
    MaxTokensVariableIgnored envMaxTokensWord upstreamDown bagQueryOnly ∧
      MaxTokensVariableIgnored envMaxTokensHuge upstreamDown bagQueryOnly ∧
      (∀ r, buildChatRequest envMaxTokens12abc bagQueryOnly = .ok r →
        bagQueryOnly "max_tokens" = none → r.MaxTokens = 12) :=
  ⟨(C6_max_tokens_without_integer_ignored envMaxTokensWord upstreamDown bagQueryOnly).1
      [] Sign.none ['a', 'b', 'c'] (by decide) (by simp)
      (by
        intro c t h
        obtain ⟨rfl, -⟩ := List.cons.inj h
        exact ⟨by decide, fun _ => ⟨by decide, by decide⟩⟩),
    ((C6_max_tokens_without_integer_ignored envMaxTokensHuge upstreamDown bagQueryOnly).2
      [] Sign.none "9223372036854775808".toList [] (by decide) (by simp) (by decide)
      (by decide) (by simp)).1 (by decide),
    ((C6_max_tokens_without_integer_ignored envMaxTokens12abc upstreamDown bagQueryOnly).2
      [] Sign.none ['1', '2'] ['a', 'b', 'c'] (by decide) (by simp) (by decide) (by decide)
      (by
        intro c t h
        obtain ⟨rfl, -⟩ := List.cons.inj h
        decide)).2 (by decide)⟩

/-! ## C7 -/

/-- C7 as stated fails on values outside the range of `int`, with the API key
configured.  The variable DEFAULT_MAX_TOKENS = "9223372036854775808" is a
decimal integer string denoting 2^63, there is no caller `max_tokens`, and the
built request has MaxTokens 2000; and the caller number 2^63, which is
integer-valued, gives a MaxTokens that is not 2^63. -/
theorem C7_counterexample_out_of_range :
    decimalValue "9223372036854775808".toList = 2 ^ 63 ∧
      isDecimalNumeral "9223372036854775808".toList = true ∧
      (buildChatRequest envMaxTokensHuge bagQueryOnly).toOption.map (·.MaxTokens)
        = some 2000 ∧
      float_2_pow_63.toRat = some ((2 : ℚ) ^ 63) ∧
      (buildChatRequest envKeyOnly bagMaxTokensHuge).toOption.map (·.MaxTokens)
        ≠ some ((2 : Int) ^ 63) := by
  refine ⟨by decide, by decide, by decide, ?_, by decide⟩
  simp [Float64.toRat, Float64.isFinite, Float64.expo, Float64.sign, Float64.magnitude,
    Float64.ulpExp, Float64.mant, Float64.frac, float_2_pow_63]
  norm_num

/-- C7, amended to the range of `int`: in a request the builder produces,
(1) when DEFAULT_MAX_TOKENS is a decimal numeral (optional sign, at least one
digit) denoting n with -2^63 ≤ n < 2^63 and the caller gives no `max_tokens`,
MaxTokens is n; (2) when the caller's `max_tokens` is a number whose value is
an integer m with -2^63 ≤ m < 2^63, MaxTokens is m, for every environment;
(3) when DEFAULT_MAX_TOKENS is a decimal numeral denoting a number outside
that range and the caller gives no `max_tokens`, MaxTokens is 2000. -/
theorem C7_max_tokens_precedence (getenv : String → String) (args : Arguments)
    (r : PerplexityChatRequest) (hb : buildChatRequest getenv args = .ok r) :
    (∀ (sgn : Sign) (ds : List Char),
        getenv "DEFAULT_MAX_TOKENS" = String.mk (sgn.chars ++ ds) → ds ≠ [] →
        (∀ c ∈ ds, c.isDigit = true) →
        - (2 : Int) ^ 63 ≤ sgn.apply (decimalValue ds) →
        sgn.apply (decimalValue ds) < (2 : Int) ^ 63 →
        args "max_tokens" = none →
        r.MaxTokens = sgn.apply (decimalValue ds)) ∧
      (∀ (f : Float64) (m : Int),
        args "max_tokens" = some (.number f) → f.toRat = some (m : ℚ) →
        - (2 : Int) ^ 63 ≤ m → m < (2 : Int) ^ 63 →
        r.MaxTokens = m) ∧
      (∀ (sgn : Sign) (ds : List Char),
        getenv "DEFAULT_MAX_TOKENS" = String.mk (sgn.chars ++ ds) → ds ≠ [] →
        (∀ c ∈ ds, c.isDigit = true) →
        ¬ (- (2 : Int) ^ 63 ≤ sgn.apply (decimalValue ds) ∧
          sgn.apply (decimalValue ds) < (2 : Int) ^ 63) →
        args "max_tokens" = none →
        r.MaxTokens = 2000) := by
  have hM := buildChatRequest_MaxTokens getenv args r hb
  refine ⟨?_, ?_, ?_⟩
  · intro sgn ds henv hne hdig hlo hhi hnone
    have hscan := Sscanf_d_numeral sgn ds hne hdig hlo hhi
    have hset : getenv "DEFAULT_MAX_TOKENS" ≠ "" := by
      rw [henv]
      intro h
      have := congrArg String.data h
      obtain ⟨d, rest, rfl⟩ := List.exists_cons_of_ne_nil hne
      cases sgn <;> simp [Sign.chars] at this
    rw [hM, hnone]
    have hres : resolveDefaultMaxTokens getenv = sgn.apply (decimalValue ds) := by
      unfold resolveDefaultMaxTokens
      simp only []
      rw [if_pos hset, henv, hscan]
    rw [hres]
    rfl
  · intro f m hf hrat hlo hhi
    rw [hM, hf]
    simp [assertFloat64, Float64.toInt_of_toRat f m hrat hlo hhi]
  · intro sgn ds henv hne hdig hout hnone
    have hscan := Sscanf_d_leading_integer [] sgn ds [] (by simp) hne hdig (by simp)
    rw [if_neg hout] at hscan
    simp only [List.nil_append, List.append_nil] at hscan
    rw [← henv] at hscan
    rw [hM, hnone, resolveDefaultMaxTokens_of_error getenv _ hscan]
    rfl

theorem C7_max_tokens_precedence_witness :
    (buildChatRequest envMaxTokens5000 bagQueryOnly = .ok requestEnv5000 ∧
        requestEnv5000.MaxTokens = 5000) ∧
      (buildChatRequest envMaxTokens5000 bagMaxTokens100
          = .ok { requestEnv5000 with MaxTokens := 100 } ∧
        ({ requestEnv5000 with MaxTokens := 100 } : PerplexityChatRequest).MaxTokens = 100) ∧
      (buildChatRequest envMaxTokensNegHuge bagQueryOnly
          = .ok { requestEnv5000 with MaxTokens := 2000 } ∧
        ({ requestEnv5000 with MaxTokens := 2000 } : PerplexityChatRequest).MaxTokens = 2000) :=
  ⟨⟨by decide,
      (C7_max_tokens_precedence envMaxTokens5000 bagQueryOnly requestEnv5000 (by decide)).1
        Sign.none "5000".toList (by decide) (by decide) (by decide) (by decide) (by decide)
        (by rfl)⟩,
    ⟨by decide,
      (C7_max_tokens_precedence envMaxTokens5000 bagMaxTokens100
        { requestEnv5000 with MaxTokens := 100 } (by decide)).2.1
        float_100 100 (by rfl)
        (by
          simp [Float64.toRat, Float64.isFinite, Float64.expo, Float64.sign,
            Float64.magnitude, Float64.ulpExp, Float64.mant, Float64.frac, float_100]
          norm_num)
        (by decide) (by decide)⟩,
    ⟨by decide,
      (C7_max_tokens_precedence envMaxTokensNegHuge bagQueryOnly
        { requestEnv5000 with MaxTokens := 2000 } (by decide)).2.2
        Sign.minus "9223372036854775809".toList (by decide) (by decide) (by decide)
        (by decide) (by rfl)⟩⟩

/-! ## The builder reads the bag through sixteen type assertions -/

theorem buildChatRequest_congr_args (getenv : String → String) (a b : Arguments)
    (hquery : assertString (a "query") = assertString (b "query"))
    (hmodel : assertString (a "model") = assertString (b "model"))
    (hmax : assertFloat64 (a "max_tokens") = assertFloat64 (b "max_tokens"))
    (htemp : assertFloat64 (a "temperature") = assertFloat64 (b "temperature"))
    (htopp : assertFloat64 (a "top_p") = assertFloat64 (b "top_p"))
    (hdom : assertSlice (a "search_domain_filter") = assertSlice (b "search_domain_filter"))
    (himg : assertBool (a "return_images") = assertBool (b "return_images"))
    (hrel : assertBool (a "return_related_questions")
      = assertBool (b "return_related_questions"))
    (hrec : assertString (a "search_recency_filter")
      = assertString (b "search_recency_filter"))
    (htopk : assertFloat64 (a "top_k") = assertFloat64 (b "top_k"))
    (hstream : assertBool (a "stream") = assertBool (b "stream"))
    (hpres : assertFloat64 (a "presence_penalty") = assertFloat64 (b "presence_penalty"))
    (hfreq : assertFloat64 (a "frequency_penalty") = assertFloat64 (b "frequency_penalty"))
    (hfmt : (assertMap (a "response_format")).isSome = (assertMap (b "response_format")).isSome)
    (hweb : acceptedContextSize (assertMap (a "web_search_options"))
      = acceptedContextSize (assertMap (b "web_search_options"))) :
    buildChatRequest getenv a = buildChatRequest getenv b := by
  have hfmt2 : ∀ old : Option Unit,
      ((assertMap (a "response_format")).map (fun _ => some ())).getD old
        = ((assertMap (b "response_format")).map (fun _ => some ())).getD old := by
    intro old
    cases ha : assertMap (a "response_format") <;> cases hb : assertMap (b "response_format") <;>
      simp [ha, hb] at hfmt ⊢
  simp only [buildChatRequest, applyModel, applyOverrides_eq, webSearchOptionsAfter, hquery,
    hmodel, hmax, htemp, htopp, hdom, himg, hrel, hrec, htopk, hstream, hpres, hfreq, hfmt2,
    hweb]

/-! ## C8 -/

/-- C8: with none of DEFAULT_MAX_TOKENS, PERPLEXITY_MODEL and
DEFAULT_SEARCH_CONTEXT_SIZE set, the bag that holds only a non-empty string
`query` q builds exactly the request with model sonar-pro, the single message
(user, q), max tokens 2000, temperature 0.2, top_p 0.9, top_k 0, presence
penalty 0.0, frequency penalty 1.0, stream, return-images and
return-related-questions false, domain filter nil, recency filter empty,
response format nil, and search context size "medium". -/
theorem C8_hardcoded_defaults (getenv : String → String) (q : String) (hq : q ≠ "")
    (hmax : getenv "DEFAULT_MAX_TOKENS" = "") (hmodel : getenv "PERPLEXITY_MODEL" = "")
    (hsize : getenv "DEFAULT_SEARCH_CONTEXT_SIZE" = "") :
    buildChatRequest getenv (Arguments.empty.insert "query" (.string q)) = .ok
      { Model := "sonar-pro"
        Messages := [{ Role := "user", Content := q }]
        MaxTokens := 2000
        Temperature := float_0_2
        TopP := float_0_9
        SearchDomainFilter := none
        ReturnImages := false
        ReturnRelatedQuestions := false
        SearchRecencyFilter := ""
        TopK := 0
        Stream := false
        PresencePenalty := float_0_0
        FrequencyPenalty := float_1_0
        ResponseFormat := none
        WebSearchOptions := some { SearchContextSize := "medium" } } := by
  have hne : ("sonar-pro" : String) ≠ "r1-1776" := by decide
  simp [buildChatRequest, applyModel, applyOverrides_eq, Arguments.insert, Arguments.empty,
    assertString, assertFloat64, assertBool, assertSlice, assertMap, initialChatRequest,
    resolveDefaultMaxTokens, resolveDefaultModel, resolveDefaultSearchContextSize,
    normalizeOffline, domainFilterAfter, recencyFilterAfter, webSearchOptionsAfter,
    acceptedContextSize, ModelSonarPro, ModelR1, hq, hmax, hmodel, hsize, hne]

theorem C8_hardcoded_defaults_witness :
    buildChatRequest envKeyOnly (Arguments.empty.insert "query" (.string "what is lean")) = .ok
      { Model := "sonar-pro"
        Messages := [{ Role := "user", Content := "what is lean" }]
        MaxTokens := 2000
        Temperature := float_0_2
        TopP := float_0_9
        SearchDomainFilter := none
        ReturnImages := false
        ReturnRelatedQuestions := false
        SearchRecencyFilter := ""
        TopK := 0
        Stream := false
        PresencePenalty := float_0_0
        FrequencyPenalty := float_1_0
        ResponseFormat := none
        WebSearchOptions := some { SearchContextSize := "medium" } } :=
  C8_hardcoded_defaults envKeyOnly "what is lean" (by decide) (by decide) (by decide)
    (by decide)

/-! ## C9 -/

/-- C9: for each of the ten optional scalar fields, a value of another dynamic
type than the field expects behaves as an absent field: the builder's outcome
on the bag equals its outcome on the bag with that field removed, so whenever
the bag without the field builds a request, the bag with the mistyped field
builds the same request and raises no error. -/
theorem C9_mistyped_scalar_ignored (getenv : String → String) (args : Arguments)
    (k : String) (t : ScalarType) (v : Value)
    (hfield : (k, t) ∈ optionalScalars) (hv : args k = some v) (hty : v.hasType t = false) :
    buildChatRequest getenv args = buildChatRequest getenv (args.erase k) ∧
      (∀ r, buildChatRequest getenv (args.erase k) = .ok r →
        buildChatRequest getenv args = .ok r) := by
  have heq : buildChatRequest getenv args = buildChatRequest getenv (args.erase k) := by
    simp only [optionalScalars, List.mem_cons, Prod.mk.injEq, List.mem_singleton,
      List.not_mem_nil, or_false] at hfield
    rcases hfield with ⟨rfl, rfl⟩ | ⟨rfl, rfl⟩ | ⟨rfl, rfl⟩ | ⟨rfl, rfl⟩ | ⟨rfl, rfl⟩ |
      ⟨rfl, rfl⟩ | ⟨rfl, rfl⟩ | ⟨rfl, rfl⟩ | ⟨rfl, rfl⟩ | ⟨rfl, rfl⟩
    all_goals
      apply buildChatRequest_congr_args
      all_goals simp only [Arguments.erase, hv]
      all_goals first
        | rfl
        | (simp only [String.reduceEq, if_false])
        | (cases v <;> simp_all [assertString, assertFloat64, assertBool, Value.hasType])
  exact ⟨heq, fun r hr => heq.trans hr⟩

theorem C9_mistyped_scalar_ignored_witness :
    buildChatRequest envKeyOnly bagMistyped
        = buildChatRequest envKeyOnly (bagMistyped.erase "max_tokens") ∧
      (∀ r, buildChatRequest envKeyOnly (bagMistyped.erase "max_tokens") = .ok r →
        buildChatRequest envKeyOnly bagMistyped = .ok r) :=
  C9_mistyped_scalar_ignored envKeyOnly bagMistyped "max_tokens" .number (.string "100")
    (by decide) (by rfl) (by rfl)

/-! ## C10 -/

/-- C10 as stated fails: with DEFAULT_SEARCH_CONTEXT_SIZE = "ultra" the bag
with query "q" builds a request for sonar-pro that carries web search options
whose search context size is "ultra". -/
theorem C10_counterexample_env_size :
    (buildChatRequest envContextUltra bagQueryOnly).toOption.map (·.WebSearchOptions)
      = some (some { SearchContextSize := "ultra" }) := by
  decide

/-- C10, amended: in every request the builder produces that carries web
search options, the search context size is "low", "medium", "high", or the
non-empty value of DEFAULT_SEARCH_CONTEXT_SIZE, which is taken as it is; so
it is one of the three whenever that variable is unset or is one of them. -/
theorem C10_context_size_range (getenv : String → String) (args : Arguments)
    (r : PerplexityChatRequest) (w : WebSearchOptions)
    (hb : buildChatRequest getenv args = .ok r) (hw : r.WebSearchOptions = some w) :
    (w.SearchContextSize = "low" ∨ w.SearchContextSize = "medium" ∨
        w.SearchContextSize = "high" ∨
        (getenv "DEFAULT_SEARCH_CONTEXT_SIZE" ≠ "" ∧
          w.SearchContextSize = getenv "DEFAULT_SEARCH_CONTEXT_SIZE")) ∧
      ((getenv "DEFAULT_SEARCH_CONTEXT_SIZE" = "" ∨
          getenv "DEFAULT_SEARCH_CONTEXT_SIZE" = "low" ∨
          getenv "DEFAULT_SEARCH_CONTEXT_SIZE" = "medium" ∨
          getenv "DEFAULT_SEARCH_CONTEXT_SIZE" = "high") →
        (w.SearchContextSize = "low" ∨ w.SearchContextSize = "medium" ∨
          w.SearchContextSize = "high")) := by
  obtain ⟨q, r0, -, -, h0, rfl⟩ := buildChatRequest_ok_inv getenv args r hb
  obtain ⟨hr0, -⟩ := applyModel_ok_inv args _ r0 h0
  have hmain : w.SearchContextSize = "low" ∨ w.SearchContextSize = "medium" ∨
        w.SearchContextSize = "high" ∨
        (getenv "DEFAULT_SEARCH_CONTEXT_SIZE" ≠ "" ∧
          w.SearchContextSize = getenv "DEFAULT_SEARCH_CONTEXT_SIZE") := by
    unfold normalizeOffline at hw
    split at hw
    · cases hw
    · rw [applyOverrides_eq, hr0] at hw
      simp only [initialChatRequest, webSearchOptionsAfter] at hw
      split at hw
      · rename_i s hs
        simp only [Option.map_some', Option.some.injEq] at hw
        subst hw
        unfold acceptedContextSize at hs
        split at hs
        · split at hs
          · split at hs
            · split at hs
              · rename_i hcond
                cases hs
                rcases hcond with h | h | h
                · exact Or.inl h
                · exact Or.inr (Or.inl h)
                · exact Or.inr (Or.inr (Or.inl h))
              · cases hs
            · cases hs
          · cases hs
        · cases hs
      · simp only [Option.some.injEq] at hw
        subst hw
        simp only [resolveDefaultSearchContextSize]
        by_cases he : getenv "DEFAULT_SEARCH_CONTEXT_SIZE" = ""
        · simp [he]
        · simp [he]
  refine ⟨hmain, ?_⟩
  intro henv
  rcases hmain with h | h | h | ⟨hne, h⟩
  · exact Or.inl h
  · exact Or.inr (Or.inl h)
  · exact Or.inr (Or.inr h)
  · rcases henv with he | he | he | he
    · exact absurd he hne
    · exact Or.inl (h.trans he)
    · exact Or.inr (Or.inl (h.trans he))
    · exact Or.inr (Or.inr (h.trans he))

theorem C10_context_size_range_witness :
    (("high" : String) = "low" ∨ ("high" : String) = "medium" ∨ ("high" : String) = "high" ∨
        (envKeyOnly "DEFAULT_SEARCH_CONTEXT_SIZE" ≠ "" ∧
          "high" = envKeyOnly "DEFAULT_SEARCH_CONTEXT_SIZE")) ∧
      ((envKeyOnly "DEFAULT_SEARCH_CONTEXT_SIZE" = "" ∨
          envKeyOnly "DEFAULT_SEARCH_CONTEXT_SIZE" = "low" ∨
          envKeyOnly "DEFAULT_SEARCH_CONTEXT_SIZE" = "medium" ∨
          envKeyOnly "DEFAULT_SEARCH_CONTEXT_SIZE" = "high") →
        (("high" : String) = "low" ∨ ("high" : String) = "medium" ∨
          ("high" : String) = "high")) :=
  C10_context_size_range envKeyOnly bagContextHigh requestContextHigh
    { SearchContextSize := "high" } (by decide) (by rfl)

/-! ## The shape of a built request -/

/-- A request the builder produces is the offline normalisation of the
overrides applied to the initial request carrying the resolved model. -/
theorem buildChatRequest_ok_form (getenv : String → String) (args : Arguments)
    (r : PerplexityChatRequest) (h : buildChatRequest getenv args = .ok r) :
    ∃ q, assertString (args "query") = some q ∧ q ≠ "" ∧
      applyModel args (initialChatRequest getenv q)
        = .ok { initialChatRequest getenv q with Model := r.Model } ∧
      r = normalizeOffline
        (applyOverrides args { initialChatRequest getenv q with Model := r.Model }) := by
  obtain ⟨q, r0, hq, hne, h0, rfl⟩ := buildChatRequest_ok_inv getenv args r h
  obtain ⟨hr0, -⟩ := applyModel_ok_inv args _ r0 h0
  have hM : (normalizeOffline (applyOverrides args r0)).Model = r0.Model := by
    rw [normalizeOffline_Model, applyOverrides_eq]
  refine ⟨q, hq, hne, ?_, ?_⟩
  · rw [hM, ← hr0]; exact h0
  · rw [hM, ← hr0]

/-- Without a caller model the resolved default passes the validation step
unchanged. -/
theorem applyModel_of_absent (args : Arguments) (r : PerplexityChatRequest)
    (hm : assertString (args "model") = none) : applyModel args r = .ok r := by
  simp [applyModel, hm]

/-! ## C11 -/

/-- C11: in a request the builder produces for a model other than r1-1776,
when `web_search_options` is an object whose `search_context_size` is the
string s, the search context size is s if s is "low", "medium" or "high", and
otherwise the resolved default: DEFAULT_SEARCH_CONTEXT_SIZE if set, else
"medium". -/
theorem C11_caller_context_size (getenv : String → String) (args : Arguments)
    (r : PerplexityChatRequest) (m : String → Option Value) (s : String)
    (hb : buildChatRequest getenv args = .ok r) (hmodel : r.Model ≠ ModelR1)
    (hweb : args "web_search_options" = some (.object m))
    (hs : m "search_context_size" = some (.string s)) :
    r.WebSearchOptions = some
      { SearchContextSize :=
          if s = "low" ∨ s = "medium" ∨ s = "high" then s
          else if getenv "DEFAULT_SEARCH_CONTEXT_SIZE" ≠ "" then
            getenv "DEFAULT_SEARCH_CONTEXT_SIZE"
          else "medium" } := by
  obtain ⟨q, -, -, -, hr⟩ := buildChatRequest_ok_form getenv args r hb
  have hM : (applyOverrides args
      { initialChatRequest getenv q with Model := r.Model }).Model ≠ ModelR1 := by
    rw [applyOverrides_eq]; exact hmodel
  rw [hr]
  unfold normalizeOffline
  rw [if_neg hM, applyOverrides_eq]
  simp only [initialChatRequest, webSearchOptionsAfter, acceptedContextSize, hweb, assertMap,
    hs, assertString, resolveDefaultSearchContextSize]
  by_cases h3 : s = "low" ∨ s = "medium" ∨ s = "high"
  · have hne : s ≠ "" := by
      rcases h3 with h | h | h <;> (rw [h]; decide)
    simp [h3, hne]
  · by_cases hne : s = ""
    · simp [h3, hne]
    · simp [h3, hne]

theorem C11_caller_context_size_witness :
    requestContextHigh.WebSearchOptions = some { SearchContextSize := "high" } ∧
      ({ requestContextHigh with WebSearchOptions := some { SearchContextSize := "medium" } }
        : PerplexityChatRequest).WebSearchOptions = some { SearchContextSize := "medium" } :=
  ⟨C11_caller_context_size envKeyOnly bagContextHigh requestContextHigh
      (fun k => if k = "search_context_size" then some (.string "high") else none) "high"
      (by decide) (by decide) (by rfl) (by rfl),
    C11_caller_context_size envKeyOnly bagContextUltra
      { requestContextHigh with WebSearchOptions := some { SearchContextSize := "medium" } }
      (fun k => if k = "search_context_size" then some (.string "ultra") else none) "ultra"
      (by decide) (by decide) (by rfl) (by rfl)⟩

/-! ## C12 -/

/-- C12: when the request is serialised and sent, the reply has status 200
and its body decodes to a response, performPerplexityChat fails with "no
content in response" if the response has no choice, and otherwise returns the
content of the first choice, whatever the later choices are. -/
theorem C12_first_choice_returned (up : Upstream) (apiKey : String)
    (req : PerplexityChatRequest) (jsonData : JSON) (resp : HTTPResponse)
    (chatResp : PerplexityChatResponse)
    (hser : marshal req = .ok jsonData)
    (hsend : up.roundTrip (chatHTTPRequest apiKey jsonData) = .ok resp)
    (hstatus : resp.StatusCode = 200)
    (hdec : up.decode resp.Body = .ok chatResp) :
    (chatResp.Choices = [] →
        performPerplexityChat up apiKey req = .error "no content in response") ∧
      (∀ first rest, chatResp.Choices = first :: rest →
        performPerplexityChat up apiKey req = .ok first.Message.Content) := by
  unfold chatHTTPRequest at hsend
  constructor
  · intro hc
    simp [performPerplexityChat, hser, hsend, hstatus, hdec, hc]
  · intro first rest hc
    simp [performPerplexityChat, hser, hsend, hstatus, hdec, hc]

theorem C12_first_choice_returned_witness :
    (responseTwoChoices.Choices = [] →
        performPerplexityChat upstreamTwoChoices "key" requestContextHigh
          = .error "no content in response") ∧
      (∀ first rest, responseTwoChoices.Choices = first :: rest →
        performPerplexityChat upstreamTwoChoices "key" requestContextHigh
          = .ok first.Message.Content) :=
  C12_first_choice_returned upstreamTwoChoices "key" requestContextHigh
    (.obj (marshalFields requestContextHigh)) { StatusCode := 200, Body := "two" }
    responseTwoChoices (by rfl) (by rfl) (by rfl) (by rfl)

/-! ## C13 -/

/-- C13: when the request is serialised and sent and the reply has a status
other than 200, performPerplexityChat returns no text: it fails with the error
"API returned error status code <status>: <body>", and it does so whatever the
decoder would make of the body. -/
theorem C13_non_200_is_error (up : Upstream) (apiKey : String)
    (req : PerplexityChatRequest) (jsonData : JSON) (resp : HTTPResponse)
    (hser : marshal req = .ok jsonData)
    (hsend : up.roundTrip (chatHTTPRequest apiKey jsonData) = .ok resp)
    (hstatus : resp.StatusCode ≠ 200) :
    ∀ decode : String → Except String PerplexityChatResponse,
      performPerplexityChat { roundTrip := up.roundTrip, decode := decode } apiKey req
        = .error ("API returned error status code " ++ toString resp.StatusCode ++ ": " ++
            resp.Body) := by
  intro decode
  unfold chatHTTPRequest at hsend
  simp [performPerplexityChat, hser, hsend, hstatus]

theorem C13_non_200_is_error_witness :
    performPerplexityChat upstreamRateLimited "key" requestContextHigh
      = .error "API returned error status code 429: rate limited" :=
  C13_non_200_is_error upstreamRateLimited "key" requestContextHigh
    (.obj (marshalFields requestContextHigh)) { StatusCode := 429, Body := "rate limited" }
    (by rfl) (by rfl) (by decide) upstreamRateLimited.decode

/-! ## C14 -/

/-- C14: when PERPLEXITY_API_KEY is empty or unset, the handler returns the
error "PERPLEXITY_API_KEY environment variable not set" for every argument
bag, valid or not, and hands no request to performPerplexityChat. -/
theorem C14_missing_api_key (getenv : String → String) (up : Upstream) (args : Arguments)
    (hk : getenv "PERPLEXITY_API_KEY" = "") :
    (handleSearchTool getenv up args).result
        = .error "PERPLEXITY_API_KEY environment variable not set" ∧
      (handleSearchTool getenv up args).calls = [] := by
  simp [handleSearchTool, hk]

theorem C14_missing_api_key_witness :
    (handleSearchTool envEmpty upstreamTwoChoices bagNumericQuery).result
        = .error "PERPLEXITY_API_KEY environment variable not set" ∧
      (handleSearchTool envEmpty upstreamTwoChoices bagNumericQuery).calls = [] :=
  C14_missing_api_key envEmpty upstreamTwoChoices bagNumericQuery (by rfl)

/-! ## Zero floats -/

/-- The comparison `f == 0` holds exactly of the floats whose value is 0. -/
theorem Float64.isZero_iff_toRat (f : Float64) : f.isZero = true ↔ f.toRat = some 0 := by
  have hbits : f.bits % 2 ^ 63 = 0 ↔ (f.bits / 2 ^ 52 % 2 ^ 11 = 0 ∧ f.bits % 2 ^ 52 = 0) := by
    norm_num
    omega
  have hmag : f.magnitude = 0 ↔ f.mant = 0 := by
    unfold Float64.magnitude
    split
    · simp
    · simp
  have hmant : f.mant = 0 ↔ (f.expo = 0 ∧ f.frac = 0) := by
    unfold Float64.mant
    split
    · rename_i h; simp [h]
    · rename_i h
      simp only [h, false_and, iff_false]
      positivity
  simp only [Float64.isZero, decide_eq_true_eq, hbits, Float64.toRat, Float64.isFinite]
  constructor
  · rintro ⟨he, hf⟩
    have he2 : f.expo = 0 := he
    have hm : f.magnitude = 0 := hmag.mpr (hmant.mpr ⟨he2, hf⟩)
    simp [he2, hm]
  · intro h
    split at h
    · simp only [Option.some.injEq] at h
      have hm : f.magnitude = 0 := by
        split at h
        · exact neg_eq_zero.mp h
        · exact h
      exact hmant.mp (hmag.mp hm)
    · cases h

/-! ## C15 -/

theorem mem_keys_omitempty (isEmpty : Bool) (key k : String) (v : JSON) :
    k ∈ (omitempty isEmpty key v).map Prod.fst ↔ (isEmpty = false ∧ k = key) := by
  cases isEmpty <;> simp [omitempty]

/-- C15: a request none of whose float fields is NaN or infinite serialises
to the object of `marshalFields`, and for every request the keys of that
object are `model`, `messages`, and each optional key exactly when its field
is not empty: a number other than 0, true, a non-empty string, a slice of
positive length, a pointer other than nil. -/
theorem C15_omitempty_keys (req : PerplexityChatRequest) :
    ((∀ f ∈ floatFields req, f.isFinite = true) →
        marshal req = .ok (.obj (marshalFields req))) ∧
      "model" ∈ (marshalFields req).map Prod.fst ∧
      "messages" ∈ (marshalFields req).map Prod.fst ∧
      ("max_tokens" ∈ (marshalFields req).map Prod.fst ↔ req.MaxTokens ≠ 0) ∧
      ("temperature" ∈ (marshalFields req).map Prod.fst ↔ req.Temperature.isZero = false) ∧
      ("top_p" ∈ (marshalFields req).map Prod.fst ↔ req.TopP.isZero = false) ∧
      ("search_domain_filter" ∈ (marshalFields req).map Prod.fst ↔
        ∃ d ds, req.SearchDomainFilter = some (d :: ds)) ∧
      ("return_images" ∈ (marshalFields req).map Prod.fst ↔ req.ReturnImages = true) ∧
      ("return_related_questions" ∈ (marshalFields req).map Prod.fst ↔
        req.ReturnRelatedQuestions = true) ∧
      ("search_recency_filter" ∈ (marshalFields req).map Prod.fst ↔
        req.SearchRecencyFilter ≠ "") ∧
      ("top_k" ∈ (marshalFields req).map Prod.fst ↔ req.TopK ≠ 0) ∧
      ("stream" ∈ (marshalFields req).map Prod.fst ↔ req.Stream = true) ∧
      ("presence_penalty" ∈ (marshalFields req).map Prod.fst ↔
        req.PresencePenalty.isZero = false) ∧
      ("frequency_penalty" ∈ (marshalFields req).map Prod.fst ↔
        req.FrequencyPenalty.isZero = false) ∧
      ("response_format" ∈ (marshalFields req).map Prod.fst ↔ req.ResponseFormat ≠ none) ∧
      ("web_search_options" ∈ (marshalFields req).map Prod.fst ↔
        req.WebSearchOptions ≠ none) := by
  have hdom : (req.SearchDomainFilter.getD []).length = 0 ↔
      ¬ ∃ d ds, req.SearchDomainFilter = some (d :: ds) := by
    cases h : req.SearchDomainFilter with
    | none => simp
    | some xs => cases xs <;> simp
  refine ⟨?_, ?_, ?_, ?_, ?_, ?_, ?_, ?_, ?_, ?_, ?_, ?_, ?_, ?_, ?_, ?_⟩
  · intro hfin
    have hnone : (floatFields req).find? (fun f => !f.isFinite) = none := by
      rw [List.find?_eq_none]
      intro f hf
      simp [hfin f hf]
    simp [marshal, hnone]
  all_goals
    simp only [marshalFields, List.map_append, List.mem_append, mem_keys_omitempty,
      List.map_cons, List.map_nil, List.mem_cons, List.mem_singleton, List.not_mem_nil,
      String.reduceEq, and_false, false_and, or_false, false_or, and_true, true_or, or_true,
      decide_eq_false_iff_not, hdom, not_not, Bool.not_eq_false, Option.isNone_eq_false_iff,
      Option.isSome_iff_ne_none, ne_eq, Bool.decide_eq_false, Bool.not_eq_true',
      Bool.not_eq_true, decide_eq_true_eq]
  all_goals simp

/-! ## C16 -/

/-- C16: when PERPLEXITY_MODEL is set to any non-empty value e, in the closed
set or not, and the bag has a valid query and no `model`, the builder succeeds
and the request's Model is e; when e is r1-1776 the search-shaped fields of the
request are cleared. -/
theorem C16_env_model_trusted (getenv : String → String) (args : Arguments) (q : String)
    (hq : assertString (args "query") = some q) (hqne : q ≠ "")
    (he : getenv "PERPLEXITY_MODEL" ≠ "") (hm : args "model" = none) :
    ∃ r, buildChatRequest getenv args = .ok r ∧ r.Model = getenv "PERPLEXITY_MODEL" ∧
      (getenv "PERPLEXITY_MODEL" = ModelR1 →
        r.SearchDomainFilter = none ∧ r.SearchRecencyFilter = "" ∧
          r.ReturnImages = false ∧ r.ReturnRelatedQuestions = false ∧
          r.WebSearchOptions = none) := by
  have hb : buildChatRequest getenv args
      = .ok (normalizeOffline (applyOverrides args (initialChatRequest getenv q))) := by
    rw [buildChatRequest_of_query getenv args q hq hqne,
      applyModel_of_absent args _ (by simp [hm, assertString])]
  have hM : (normalizeOffline (applyOverrides args (initialChatRequest getenv q))).Model
      = getenv "PERPLEXITY_MODEL" := by
    rw [normalizeOffline_Model, applyOverrides_eq]
    simp [initialChatRequest, resolveDefaultModel, he]
  refine ⟨_, hb, hM, ?_⟩
  intro h1
  exact normalizeOffline_cleared _ (hM.trans h1)

theorem C16_env_model_trusted_witness :
    ∃ r, buildChatRequest envModelCustom bagQueryOnly = .ok r ∧
      r.Model = envModelCustom "PERPLEXITY_MODEL" ∧
      (envModelCustom "PERPLEXITY_MODEL" = ModelR1 →
        r.SearchDomainFilter = none ∧ r.SearchRecencyFilter = "" ∧
          r.ReturnImages = false ∧ r.ReturnRelatedQuestions = false ∧
          r.WebSearchOptions = none) :=
  C16_env_model_trusted envModelCustom bagQueryOnly "q" (by rfl) (by decide) (by decide)
    (by rfl)

theorem C15_omitempty_keys_witness :
    marshal requestContextHigh = .ok (.obj (marshalFields requestContextHigh)) :=
  (C15_omitempty_keys requestContextHigh).1 (by decide)

/-! ## The keys the builder depends on -/

/-- Two bags that agree on the keys of `argumentNamesRead` build the same. -/
theorem buildChatRequest_reads_only (getenv : String → String) (a b : Arguments)
    (h : ∀ k ∈ argumentNamesRead, a k = b k) :
    buildChatRequest getenv a = buildChatRequest getenv b := by
  have hk : ∀ k, k ∈ argumentNamesRead → a k = b k := h
  apply buildChatRequest_congr_args
  all_goals rw [hk _ (by decide)]

/-! ## C17 -/

/-- C17, the code: the tool is named perplexity_search and the values it
enumerates for `model` are the six identifiers the validator accepts; but it
declares fourteen parameter names, all of them read by the handler, while the
handler reads fifteen: `response_format` is read (the bag with query "q" and
an object `response_format` builds a request with the marker set, unlike the
bag without it) and is not declared. -/
theorem C17_schema_lacks_response_format :
    buildSearchTool.Name = "perplexity_search" ∧
      declaredEnum "model" = validModels ∧
      declaredParameters =
        ["query", "model", "search_recency_filter", "max_tokens", "temperature", "top_p",
         "search_domain_filter", "return_images", "return_related_questions", "top_k",
         "stream", "presence_penalty", "frequency_penalty", "web_search_options"] ∧
      (∀ k ∈ declaredParameters, k ∈ argumentNamesRead) ∧
      (∀ k ∈ argumentNamesRead, k ≠ "response_format" → k ∈ declaredParameters) ∧
      "response_format" ∈ argumentNamesRead ∧
      "response_format" ∉ declaredParameters ∧
      (buildChatRequest envKeyOnly bagResponseFormat).toOption.map (·.ResponseFormat)
        = some (some ()) ∧
      (buildChatRequest envKeyOnly bagQueryOnly).toOption.map (·.ResponseFormat)
        = some none := by
  decide

/-! ## C18 -/

/-- C18 as stated fails: the bag with query "q" and `search_recency_filter` =
"decade" builds a request whose SearchRecencyFilter is "decade", which is none
of the declared options. -/
theorem C18_counterexample_decade :
    (buildChatRequest envKeyOnly bagRecencyDecade).toOption.map (·.SearchRecencyFilter)
        = some "decade" ∧
      "decade" ∉ declaredEnum "search_recency_filter" := by
  decide

/-- C18, amended: the tool declares `search_recency_filter` with the options
month, week, day, hour; in every request the builder produces, the
SearchRecencyFilter is empty or is the caller's non-empty string
`search_recency_filter`, taken as it is; so it is empty or one of the four
options whenever the caller's value is one of them. -/
theorem C18_recency_filter_passthrough (getenv : String → String) (args : Arguments)
    (r : PerplexityChatRequest) (hb : buildChatRequest getenv args = .ok r) :
    declaredEnum "search_recency_filter" = ["month", "week", "day", "hour"] ∧
      (r.SearchRecencyFilter = "" ∨
        (r.SearchRecencyFilter ≠ "" ∧
          args "search_recency_filter" = some (.string r.SearchRecencyFilter))) ∧
      ((∀ s, args "search_recency_filter" = some (.string s) →
          s ∈ declaredEnum "search_recency_filter") →
        (r.SearchRecencyFilter = "" ∨
          r.SearchRecencyFilter ∈ declaredEnum "search_recency_filter")) := by
  have hmain : r.SearchRecencyFilter = "" ∨
      (r.SearchRecencyFilter ≠ "" ∧
        args "search_recency_filter" = some (.string r.SearchRecencyFilter)) := by
    obtain ⟨q, -, -, -, hr⟩ := buildChatRequest_ok_form getenv args r hb
    rw [hr]
    unfold normalizeOffline
    split
    · exact Or.inl rfl
    · rw [applyOverrides_eq]
      simp only [initialChatRequest, recencyFilterAfter]
      cases hv : args "search_recency_filter" with
      | none => simp [assertString]
      | some v =>
        cases v with
        | string s =>
          by_cases hs : s = ""
          · simp [assertString, hs]
          · simp [assertString, hs]
        | _ => simp [assertString]
  refine ⟨by decide, hmain, ?_⟩
  intro hall
  rcases hmain with h | ⟨-, h⟩
  · exact Or.inl h
  · exact Or.inr (hall _ h)

theorem C18_recency_filter_passthrough_witness :
    declaredEnum "search_recency_filter" = ["month", "week", "day", "hour"] ∧
      (("week" : String) = "" ∨
        (("week" : String) ≠ "" ∧
          bagRecencyWeek "search_recency_filter" = some (.string "week"))) ∧
      ((∀ s, bagRecencyWeek "search_recency_filter" = some (.string s) →
          s ∈ declaredEnum "search_recency_filter") →
        (("week" : String) = "" ∨ "week" ∈ declaredEnum "search_recency_filter")) :=
  C18_recency_filter_passthrough envKeyOnly bagRecencyWeek
    { requestContextHigh with
      SearchRecencyFilter := "week"
      WebSearchOptions := some { SearchContextSize := "medium" } }
    (by decide)

/-! ## C19 -/

/-- The temperature of a built request: the caller's number when there is
one, else 0.2. -/
theorem buildChatRequest_Temperature (getenv : String → String) (args : Arguments)
    (r : PerplexityChatRequest) (h : buildChatRequest getenv args = .ok r) :
    r.Temperature = (assertFloat64 (args "temperature")).getD float_0_2 := by
  obtain ⟨q, -, -, -, hr⟩ := buildChatRequest_ok_form getenv args r h
  rw [hr]
  unfold normalizeOffline
  split <;> (rw [applyOverrides_eq]; rfl)

theorem marshal_of_finite (req : PerplexityChatRequest)
    (hfin : ∀ f ∈ floatFields req, f.isFinite = true) :
    marshal req = .ok (.obj (marshalFields req)) := by
  have hnone : (floatFields req).find? (fun f => !f.isFinite) = none := by
    rw [List.find?_eq_none]
    intro f hf
    simp [hfin f hf]
  simp [marshal, hnone]

set_option exponentiation.threshold 2000 in
/-- C19 as stated fails.  The bag with query "q", `max_tokens` 0 and
`temperature` 0 builds a request with MaxTokens 0 and Temperature 0, which
serialises to a body with the keys model, messages, top_p, frequency_penalty
and web_search_options: neither `max_tokens` nor `temperature` is written.
And the bag with `max_tokens` 2^63, which is integer-valued, builds a request
whose body has `max_tokens` with a value that is not 2^63. -/
theorem C19_counterexample_zero_and_range :
    (∃ r, buildChatRequest envKeyOnly bagZeroOverrides = .ok r ∧
      r.MaxTokens = 0 ∧ r.Temperature = float_0_0 ∧
      marshal r = .ok (.obj (marshalFields r)) ∧
      (marshalFields r).map Prod.fst
        = ["model", "messages", "top_p", "frequency_penalty", "web_search_options"] ∧
      "max_tokens" ∉ (marshalFields r).map Prod.fst ∧
      "temperature" ∉ (marshalFields r).map Prod.fst) ∧
    (∃ r, buildChatRequest envKeyOnly bagMaxTokensHuge = .ok r ∧
      float_2_pow_63.toRat = some ((2 : ℚ) ^ 63) ∧
      marshal r = .ok (.obj (marshalFields r)) ∧
      ("max_tokens", JSON.int (- (2 : Int) ^ 63)) ∈ marshalFields r) := by
  constructor
  · exact ⟨{ requestContextHigh with
        MaxTokens := 0
        Temperature := float_0_0
        WebSearchOptions := some { SearchContextSize := "medium" } },
      by decide, by decide, by decide, by rfl, by decide, by decide, by decide⟩
  · refine ⟨{ requestContextHigh with
        MaxTokens := - (2 : Int) ^ 63
        WebSearchOptions := some { SearchContextSize := "medium" } },
      by decide, ?_, by rfl, ?_⟩
    · simp [Float64.toRat, Float64.isFinite, Float64.expo, Float64.sign, Float64.magnitude,
        Float64.ulpExp, Float64.mant, Float64.frac, float_2_pow_63]
      norm_num
    · simp [marshalFields, omitempty, requestContextHigh]

/-- C19, amended: in a request the builder produces, a caller `temperature`
other than 0 is written to the body under the key `temperature` with the
caller's value, and a caller `max_tokens` whose value is an integer m other
than 0 with -2^63 ≤ m < 2^63 is written under the key `max_tokens` with the
value m; the body is the object holding these fields whenever no float field
of the request is NaN or infinite. -/
theorem C19_nonzero_overrides_reach_wire (getenv : String → String) (args : Arguments)
    (r : PerplexityChatRequest) (hb : buildChatRequest getenv args = .ok r) :
    ((∀ f ∈ floatFields r, f.isFinite = true) →
        marshal r = .ok (.obj (marshalFields r))) ∧
      (∀ f, args "temperature" = some (.number f) → f.isZero = false →
        ("temperature", JSON.float f) ∈ marshalFields r) ∧
      (∀ (f : Float64) (m : Int), args "max_tokens" = some (.number f) →
        f.toRat = some (m : ℚ) → - (2 : Int) ^ 63 ≤ m → m < (2 : Int) ^ 63 → m ≠ 0 →
        ("max_tokens", JSON.int m) ∈ marshalFields r) := by
  refine ⟨marshal_of_finite r, ?_, ?_⟩
  · intro f hf hz
    have ht : r.Temperature = f := by
      rw [buildChatRequest_Temperature getenv args r hb, hf]; rfl
    simp [marshalFields, omitempty, ht, hz]
  · intro f m hf hrat hlo hhi hne
    have hm : r.MaxTokens = m := by
      rw [buildChatRequest_MaxTokens getenv args r hb, hf]
      simp [assertFloat64, Float64.toInt_of_toRat f m hrat hlo hhi]
    simp [marshalFields, omitempty, hm, hne]

theorem C19_nonzero_overrides_reach_wire_witness :
    marshal requestNonZeroOverrides = .ok (.obj (marshalFields requestNonZeroOverrides)) ∧
      ("temperature", JSON.float float_0_9) ∈ marshalFields requestNonZeroOverrides ∧
      ("max_tokens", JSON.int 100) ∈ marshalFields requestNonZeroOverrides :=
  ⟨(C19_nonzero_overrides_reach_wire envKeyOnly bagNonZeroOverrides requestNonZeroOverrides
      (by decide)).1 (by decide),
    (C19_nonzero_overrides_reach_wire envKeyOnly bagNonZeroOverrides requestNonZeroOverrides
      (by decide)).2.1 float_0_9 (by rfl) (by decide),
    (C19_nonzero_overrides_reach_wire envKeyOnly bagNonZeroOverrides requestNonZeroOverrides
      (by decide)).2.2 float_100 100 (by rfl)
      (by
        simp [Float64.toRat, Float64.isFinite, Float64.expo, Float64.sign,
          Float64.magnitude, Float64.ulpExp, Float64.mant, Float64.frac, float_100]
        norm_num)
      (by decide) (by decide) (by decide)⟩

/-! ## C20 -/

theorem normalizeOffline_of_offline (r : PerplexityChatRequest) (h : r.Model = ModelR1) :
    normalizeOffline r =
      { r with
        SearchDomainFilter := none
        ReturnImages := false
        ReturnRelatedQuestions := false
        SearchRecencyFilter := ""
        WebSearchOptions := none } := by
  simp [normalizeOffline, h]

/-- C20: when the builder produces a request with Model r1-1776, it produces
the same request from the bag with the keys search_domain_filter,
return_images, return_related_questions, search_recency_filter and
web_search_options removed; and the request has the model, messages, max
tokens, temperature, top_p, top_k, stream, presence penalty, frequency penalty
and response format of the request as it was before the offline
normalisation, that is, after the overrides. -/
theorem C20_offline_frame (getenv : String → String) (args : Arguments)
    (r : PerplexityChatRequest) (hb : buildChatRequest getenv args = .ok r)
    (hmodel : r.Model = ModelR1) :
    buildChatRequest getenv (args.eraseAll searchShapedKeys) = .ok r ∧
      ∃ q, assertString (args "query") = some q ∧
        r = normalizeOffline
          (applyOverrides args { initialChatRequest getenv q with Model := ModelR1 }) ∧
        (let pre := applyOverrides args { initialChatRequest getenv q with Model := ModelR1 }
         r.Model = pre.Model ∧ r.Messages = pre.Messages ∧ r.MaxTokens = pre.MaxTokens ∧
          r.Temperature = pre.Temperature ∧ r.TopP = pre.TopP ∧ r.TopK = pre.TopK ∧
          r.Stream = pre.Stream ∧ r.PresencePenalty = pre.PresencePenalty ∧
          r.FrequencyPenalty = pre.FrequencyPenalty ∧
          r.ResponseFormat = pre.ResponseFormat) := by
  obtain ⟨q, hq, hqne, hmod, hr⟩ := buildChatRequest_ok_form getenv args r hb
  rw [hmodel] at hmod hr
  have hpre : (applyOverrides args
      { initialChatRequest getenv q with Model := ModelR1 }).Model = ModelR1 := by
    rw [applyOverrides_eq]
  have hpre2 : (applyOverrides (args.eraseAll searchShapedKeys)
      { initialChatRequest getenv q with Model := ModelR1 }).Model = ModelR1 := by
    rw [applyOverrides_eq]
  have hkeep : ∀ k, k ∉ searchShapedKeys → (args.eraseAll searchShapedKeys) k = args k := by
    intro k hk
    simp [Arguments.eraseAll, hk]
  have hq2 : assertString ((args.eraseAll searchShapedKeys) "query") = some q := by
    rw [hkeep _ (by decide)]; exact hq
  have hmod2 : applyModel (args.eraseAll searchShapedKeys) (initialChatRequest getenv q)
      = .ok { initialChatRequest getenv q with Model := ModelR1 } := by
    rw [← hmod]
    simp only [applyModel, hkeep "model" (by decide)]
  refine ⟨?_, q, hq, hr, ?_⟩
  · rw [buildChatRequest_of_query getenv _ q hq2 hqne, hmod2, hr]
    simp only [normalizeOffline_of_offline _ hpre, normalizeOffline_of_offline _ hpre2]
    simp only [applyOverrides_eq, hkeep "max_tokens" (by decide),
      hkeep "temperature" (by decide), hkeep "top_p" (by decide), hkeep "top_k" (by decide),
      hkeep "stream" (by decide), hkeep "presence_penalty" (by decide),
      hkeep "frequency_penalty" (by decide), hkeep "response_format" (by decide)]
  · simp only [hr, normalizeOffline_of_offline _ hpre, and_self]

theorem C20_offline_frame_witness :
    buildChatRequest envKeyOnly (bagOfflineSearchy.eraseAll searchShapedKeys)
        = .ok { requestOfflineSample with MaxTokens := 100 } ∧
      ∃ q, assertString (bagOfflineSearchy "query") = some q ∧
        ({ requestOfflineSample with MaxTokens := 100 } : PerplexityChatRequest)
          = normalizeOffline (applyOverrides bagOfflineSearchy
              { initialChatRequest envKeyOnly q with Model := ModelR1 }) ∧
        (let pre := applyOverrides bagOfflineSearchy
            { initialChatRequest envKeyOnly q with Model := ModelR1 }
         let r : PerplexityChatRequest := { requestOfflineSample with MaxTokens := 100 }
         r.Model = pre.Model ∧ r.Messages = pre.Messages ∧ r.MaxTokens = pre.MaxTokens ∧
          r.Temperature = pre.Temperature ∧ r.TopP = pre.TopP ∧ r.TopK = pre.TopK ∧
          r.Stream = pre.Stream ∧ r.PresencePenalty = pre.PresencePenalty ∧
          r.FrequencyPenalty = pre.FrequencyPenalty ∧
          r.ResponseFormat = pre.ResponseFormat) :=
  C20_offline_frame envKeyOnly bagOfflineSearchy { requestOfflineSample with MaxTokens := 100 }
    (by decide) (by rfl)

end PerplexityMCP
